import Mathlib

/-!
Verification development for the NewsFrontier matching-and-clustering core
(`src/postprocess/embedding_generator.py`, `src/postprocess/clustering_service.py`,
`src/postprocess/main.py`).

Python floats are modelled as real numbers (exact arithmetic); Python lists of
floats as `List ℝ`.  A Python value that may be absent (`None`) or empty is
modelled by the empty list where the source only tests truthiness
(`if title_embedding:` is false for both `None` and `[]`).
Functions that can raise are modelled in `Except String`; a `try/except`
block in the source becomes a `match` on the `Except` value.
-/

namespace NewsFrontier

/-- Embedding vectors: Python `List[float]` as a list of reals.
The empty list models both `None` and `[]` (both are falsy in Python). -/
abbrev Vec := List ℝ

/-- Dot product of two vectors, `numpy`-style over the zipped entries.
All call sites only reach it with equal lengths. -/
def dot (a b : Vec) : ℝ := (List.zipWith (fun x y => x * y) a b).sum

/-- Row norm as used by `sklearn.preprocessing.normalize`: a row whose
Euclidean norm is zero is left unnormalised (the norm is replaced by 1). -/
noncomputable def sklNorm (a : Vec) : ℝ :=
  if Real.sqrt (dot a a) = 0 then 1 else Real.sqrt (dot a a)

/-- `sklearn.metrics.pairwise.cosine_similarity` on two single-row matrices
of the same width: the dot product of the two rows after `normalize`
(zero rows are left as zero rather than producing a division by zero). -/
noncomputable def sklearn_cosine (a b : Vec) : ℝ :=
  dot a b / (sklNorm a * sklNorm b)

/-- Body of the `try:` block of
`SimilarityCalculator.calculate_cosine_similarity`
(`embedding_generator.py` lines 252-263): raises `ValueError` on a
dimension mismatch, otherwise returns the sklearn cosine similarity. -/
noncomputable def calculate_cosine_similarity_body (a b : Vec) : Except String ℝ :=
  if a.length ≠ b.length then
    Except.error "Embedding dimension mismatch"
  else
    Except.ok (sklearn_cosine a b)

/-- `SimilarityCalculator.calculate_cosine_similarity`
(`embedding_generator.py` lines 238-267): the `except Exception` handler
catches every exception raised by the body - including the `ValueError`
the body itself raises on a dimension mismatch - logs it and returns `0.0`.
The method therefore never raises. -/
noncomputable def calculate_cosine_similarity (a b : Vec) : ℝ :=
  match calculate_cosine_similarity_body a b with
  | Except.ok v => v
  | Except.error _ => 0

lemma dot_comm (a b : Vec) : dot a b = dot b a := by
  unfold dot
  induction a generalizing b with
  | nil => cases b <;> simp
  | cons x xs ih =>
    cases b with
    | nil => simp
    | cons y ys => simp [List.zipWith, ih, mul_comm]

lemma dot_self_nonneg (a : Vec) : 0 ≤ dot a a := by
  unfold dot
  induction a with
  | nil => simp
  | cons x xs ih =>
    simp only [List.zipWith, List.sum_cons]
    have := mul_self_nonneg x
    linarith

lemma sklearn_cosine_self (a : Vec) (h : dot a a ≠ 0) : sklearn_cosine a a = 1 := by
  have hpos : 0 < dot a a := lt_of_le_of_ne (dot_self_nonneg a) (Ne.symm h)
  have hs : Real.sqrt (dot a a) ≠ 0 := by
    rw [Real.sqrt_ne_zero (le_of_lt hpos)]
    exact h
  unfold sklearn_cosine sklNorm
  rw [if_neg hs, Real.mul_self_sqrt (le_of_lt hpos)]
  exact div_self h

/-- Topic dictionary as this core sees it.  The four optional similarity
fields model the keys the matching code may add to a copy of the dict;
they are absent (`none`) on the snapshot entries themselves. -/
structure Topic where
  id : ℕ
  user_id : ℕ
  name : String
  topic_vector : Vec
  similarity_score : Option ℝ := none
  similarity_source : Option String := none
  title_similarity : Option ℝ := none
  summary_similarity : Option ℝ := none

/-- Sort key `x['similarity_score']` used by both sorting call sites
(every element being sorted carries the key). -/
noncomputable def scoreOf (t : Topic) : ℝ := t.similarity_score.getD 0

/-- Comparison of `list.sort(key=lambda x: x['similarity_score'],
reverse=True)`: `a` may precede `b` iff its score is at least `b`'s
(a stable descending sort). -/
noncomputable def scoreGE (a b : Topic) : Bool := decide (scoreOf b ≤ scoreOf a)

/-- The final dual-embedding score of a candidate vector `v` as computed by
`SimilarityCalculator.find_similar_topics`: the maximum of the similarities
available through `calculate_cosine_similarity`. -/
noncomputable def finalScore (tEmb sEmb : Vec) (v : Vec) : ℝ :=
  if tEmb ≠ [] then
    if sEmb ≠ [] then
      max (calculate_cosine_similarity tEmb v) (calculate_cosine_similarity sEmb v)
    else calculate_cosine_similarity tEmb v
  else calculate_cosine_similarity sEmb v

namespace SimilarityCalculator

/-- One iteration of the `for topic in topics:` loop of
`SimilarityCalculator.find_similar_topics` (embedding_generator.py lines
303-351): `none` when the candidate is skipped (missing vector or score
below threshold), otherwise the annotated copy (`topic.copy()` with the
similarity keys set, `title_similarity`/`summary_similarity` only when the
corresponding input embedding was supplied). -/
noncomputable def topic_entry (tEmb sEmb : Vec) (threshold : ℝ) (topic : Topic) :
    Option Topic :=
  if topic.topic_vector = [] then none
  else
    let title_similarity : Option ℝ :=
      if tEmb ≠ [] then some (calculate_cosine_similarity tEmb topic.topic_vector) else none
    let summary_similarity : Option ℝ :=
      if sEmb ≠ [] then some (calculate_cosine_similarity sEmb topic.topic_vector) else none
    match title_similarity, summary_similarity with
    | some t, some s =>
        let fs := if s < t then t else s
        let src := if s < t then "title" else "summary"
        if threshold ≤ fs then
          some { topic with
                 similarity_score := some fs
                 similarity_source := some src
                 title_similarity := some t
                 summary_similarity := some s }
        else none
    | some t, none =>
        if threshold ≤ t then
          some { topic with
                 similarity_score := some t
                 similarity_source := some "title"
                 title_similarity := some t }
        else none
    | none, some s =>
        if threshold ≤ s then
          some { topic with
                 similarity_score := some s
                 similarity_source := some "summary"
                 summary_similarity := some s }
        else none
    | none, none => none

/-- `SimilarityCalculator.find_similar_topics` (embedding_generator.py lines
269-357), paired with the candidate list as observable after the call: the
function only annotates copies, so the input list is returned unchanged.
Python evaluates `threshold or self.default_threshold`, so both `None` and
the falsy `0.0` fall back to the default.  The final
`list.sort(key=lambda x: x['similarity_score'], reverse=True)` is a stable
descending sort, modelled by `List.mergeSort` with the "greater or equal
score" comparison. -/
noncomputable def find_similar_topics (default_threshold : ℝ) (tEmb sEmb : Vec)
    (topics : List Topic) (threshold : Option ℝ) : List Topic × List Topic :=
  if topics.isEmpty then ([], topics)
  else
    let th : ℝ := match threshold with
      | none => default_threshold
      | some t => if t = 0 then default_threshold else t
    if tEmb = [] ∧ sEmb = [] then ([], topics)
    else
      let similar := topics.filterMap (topic_entry tEmb sEmb th)
      (similar.mergeSort scoreGE, topics)

end SimilarityCalculator

namespace AIPostProcessService

/-- Per-topic body of the loop in `AIPostProcessService.find_similar_topics`
(main.py lines 389-434).  This version calls sklearn's `cosine_similarity`
directly, so a dimension mismatch raises (`Except.error`); the enclosing
`try` of the caller turns that into an empty overall result. -/
noncomputable def topic_entry (tEmb sEmb : Vec) (threshold : ℝ) (topic : Topic) :
    Except String (Option Topic) :=
  if topic.topic_vector = [] then Except.ok none
  else if (tEmb ≠ [] ∧ tEmb.length ≠ topic.topic_vector.length)
       ∨ (sEmb ≠ [] ∧ sEmb.length ≠ topic.topic_vector.length) then
    Except.error "cosine_similarity: incompatible dimensions"
  else
    let title_similarity : Option ℝ :=
      if tEmb ≠ [] then some (sklearn_cosine tEmb topic.topic_vector) else none
    let summary_similarity : Option ℝ :=
      if sEmb ≠ [] then some (sklearn_cosine sEmb topic.topic_vector) else none
    match title_similarity, summary_similarity with
    | some t, some s =>
        let fs := max t s
        let src := if s < t then "title" else "summary"
        if threshold ≤ fs then
          Except.ok (some { topic with
                            similarity_score := some fs
                            similarity_source := some src
                            title_similarity := some t
                            summary_similarity := some s })
        else Except.ok none
    | some t, none =>
        if threshold ≤ t then
          Except.ok (some { topic with
                            similarity_score := some t
                            similarity_source := some "title"
                            title_similarity := some t })
        else Except.ok none
    | none, some s =>
        if threshold ≤ s then
          Except.ok (some { topic with
                            similarity_score := some s
                            similarity_source := some "summary"
                            summary_similarity := some s })
        else Except.ok none
    | none, none => Except.ok none

/-- The `for topic in existing_topics:` loop of
`AIPostProcessService.find_similar_topics`, threading a raise through
`Except` and collecting the appended annotated copies in input order. -/
noncomputable def topics_loop (tEmb sEmb : Vec) (th : ℝ) :
    List Topic → Except String (List Topic)
  | [] => Except.ok []
  | topic :: rest =>
    match topic_entry tEmb sEmb th topic with
    | Except.error e => Except.error e
    | Except.ok none => topics_loop tEmb sEmb th rest
    | Except.ok (some t) =>
      match topics_loop tEmb sEmb th rest with
      | Except.error e => Except.error e
      | Except.ok l => Except.ok (t :: l)

/-- `AIPostProcessService.find_similar_topics` (main.py lines 362-451):
threshold defaulting uses `is None` (an explicit 0.0 is honoured here),
candidates come from the cycle's topic snapshot `cached_topics`, and the
enclosing `try/except` turns any raise inside the loop into `[]`. -/
noncomputable def find_similar_topics (similarity_threshold : ℝ) (cached_topics : List Topic)
    (tEmb sEmb : Vec) (threshold : Option ℝ) : List Topic :=
  let th := threshold.getD similarity_threshold
  if tEmb = [] ∧ sEmb = [] then []
  else if cached_topics.isEmpty then []
  else
    match topics_loop tEmb sEmb th cached_topics with
    | Except.error _ => []
    | Except.ok similar => similar.mergeSort scoreGE

/-- Per-article core of `AIPostProcessService.backfill_existing_articles`
(main.py lines 515-541), applied to the stored title/summary embeddings of a
previously processed article and the new topic's vector.  `Except.error`
models the sklearn raise on a dimension mismatch (the per-article handler
catches it and skips the article); `ok (some s)` is the relevance score with
which the article-topic association is created; `ok none` means no
association. -/
noncomputable def backfill_article_score (topic_embedding tEmb sEmb : Vec) (threshold : ℝ) :
    Except String (Option ℝ) :=
  if tEmb ≠ [] ∧ topic_embedding.length ≠ tEmb.length then
    Except.error "cosine_similarity: incompatible dimensions"
  else if sEmb ≠ [] ∧ topic_embedding.length ≠ sEmb.length then
    Except.error "cosine_similarity: incompatible dimensions"
  else
    let title_similarity : Option ℝ :=
      if tEmb ≠ [] then some (sklearn_cosine topic_embedding tEmb) else none
    let summary_similarity : Option ℝ :=
      if sEmb ≠ [] then some (sklearn_cosine topic_embedding sEmb) else none
    match title_similarity, summary_similarity with
    | some t, some s =>
        if threshold ≤ max t s then Except.ok (some (max t s)) else Except.ok none
    | some t, none => if threshold ≤ t then Except.ok (some t) else Except.ok none
    | none, some s => if threshold ≤ s then Except.ok (some s) else Except.ok none
    | none, none => Except.ok none

end AIPostProcessService

/-- Event-cluster dictionary as this core sees it.  The two optional score
fields model the keys the clustering code may add to the dict. -/
structure Event where
  id : ℕ
  title : String
  description : Option String
  event_embedding : Vec
  similarity_score : Option ℝ := none
  relevance_score : Option ℝ := none

/-- The maximum of the available cosine similarities between a candidate
vector `v` and the article's title/summary embeddings - the relevance score
the spec attributes to both the live and the backfill matching paths
(sklearn cosine, as both paths in main.py call sklearn directly). -/
noncomputable def dualMax (tEmb sEmb v : Vec) : ℝ :=
  if tEmb ≠ [] then
    if sEmb ≠ [] then max (sklearn_cosine tEmb v) (sklearn_cosine sEmb v)
    else sklearn_cosine tEmb v
  else sklearn_cosine sEmb v

namespace SimilarityCalculator

/-- The `for event in events:` loop of
`SimilarityCalculator.find_similar_events` (embedding_generator.py lines
387-411): tracks the best event by position (modelling the Python reference
into the list) and the best similarity, starting from `(None, 0.0)`; an
event replaces the best only on a strictly greater dual similarity.
Missing input embeddings contribute a similarity of 0.0. -/
noncomputable def eventSimCalc (tEmb sEmb : Vec) (e : Event) : ℝ :=
  max (if tEmb ≠ [] then calculate_cosine_similarity tEmb e.event_embedding else 0)
      (if sEmb ≠ [] then calculate_cosine_similarity sEmb e.event_embedding else 0)

/-- The loop body itself (title similarity, then summary similarity, then
their maximum, 0.0 for a missing input embedding) is `eventSimCalc`. -/
noncomputable def fse_loop (tEmb sEmb : Vec) :
    List Event → ℕ → Option ℕ × ℝ → Option ℕ × ℝ
  | [], _, st => st
  | e :: rest, i, (best, bestSim) =>
    if e.event_embedding = [] then fse_loop tEmb sEmb rest (i + 1) (best, bestSim)
    else
      if bestSim < eventSimCalc tEmb sEmb e then
        fse_loop tEmb sEmb rest (i + 1) (some i, eventSimCalc tEmb sEmb e)
      else fse_loop tEmb sEmb rest (i + 1) (best, bestSim)

/-- `SimilarityCalculator.find_similar_events` (embedding_generator.py lines
359-421), paired with the events list as observable after the call: on a
match the returned dictionary is the matched element of the caller's list
itself, mutated in place by adding the 'similarity_score' key, so the
post-call list shares the mutated element. -/
noncomputable def find_similar_events (tEmb sEmb : Vec) (events : List Event) (threshold : ℝ) :
    Option Event × List Event :=
  if events.isEmpty ∨ (tEmb = [] ∧ sEmb = []) then (none, events)
  else
    match fse_loop tEmb sEmb events 0 (none, 0) with
    | (some i, bestSim) =>
      if threshold ≤ bestSim then
        match events[i]? with
        | some e =>
          let e' := { e with similarity_score := some bestSim }
          (some e', events.set i e')
        | none => (none, events)
      else (none, events)
    | (none, _) => (none, events)

end SimilarityCalculator

/-- Structured fields read from the parsed reasoning response via
`decision.get(...)`: an absent or empty 'title' is modelled by `""`
(both are falsy at the `if not event_title:` check). -/
structure Decision where
  title : String
  description : Option String
  event_description : Option String

/-- Arguments of one `create_event_cluster` backend call. -/
structure CreateCall where
  user_id : ℕ
  topic_id : ℕ
  title : String
  description : Option String
  event_description : Option String

/-- Observable side effects of one `detect_or_create_cluster` call: whether
the external reasoning (LLM) capability was invoked, and the event-creation
calls issued to the backend, in order. -/
structure Effects where
  llm_called : Bool
  creates : List CreateCall

/-- Behaviour of the external collaborators during one
`detect_or_create_cluster` call.  `Except.error` models the collaborator
call raising; `Except.ok` its returned value (`Option` for Python `None`). -/
structure Env where
  get_events : Except String (List Event)
  llm_response : Except String (Option String)
  parse : String → Except String Decision
  create_event : Except String (Option Event)

namespace AIPostProcessService

/-- Dual similarity of the article against one event embedding as computed
by the stage-1 loop of `AIPostProcessService.detect_or_create_cluster`
(main.py lines 706-722): missing article embeddings contribute 0.0,
and sklearn's cosine is called directly. -/
noncomputable def eventSim (tEmb sEmb : Vec) (e : Event) : ℝ :=
  max (if tEmb ≠ [] then sklearn_cosine tEmb e.event_embedding else 0)
      (if sEmb ≠ [] then sklearn_cosine sEmb e.event_embedding else 0)

/-- An event participates in stage-1 scoring iff it carries an embedding and
neither sklearn call raises (dimension compatibility with the supplied
article embeddings); the loop skips every other event. -/
def eventOk (tEmb sEmb : Vec) (e : Event) : Prop :=
  e.event_embedding ≠ []
  ∧ (tEmb ≠ [] → tEmb.length = e.event_embedding.length)
  ∧ (sEmb ≠ [] → sEmb.length = e.event_embedding.length)

/-- The `for event in existing_events:` stage-1 loop (main.py lines
701-731): events without an embedding are skipped; the per-event
`try/except` skips an event whose similarity computation raises (dimension
mismatch); the best match is replaced only on a strictly greater similarity
(initial best 0.0). -/
noncomputable def stage1_loop (tEmb sEmb : Vec) :
    List Event → ℕ → Option ℕ × ℝ → Option ℕ × ℝ
  | [], _, st => st
  | e :: rest, i, (best, bestSim) =>
    if e.event_embedding = [] then stage1_loop tEmb sEmb rest (i + 1) (best, bestSim)
    else if (tEmb ≠ [] ∧ tEmb.length ≠ e.event_embedding.length)
         ∨ (sEmb ≠ [] ∧ sEmb.length ≠ e.event_embedding.length) then
      stage1_loop tEmb sEmb rest (i + 1) (best, bestSim)
    else
      if bestSim < eventSim tEmb sEmb e then
        stage1_loop tEmb sEmb rest (i + 1) (some i, eventSim tEmb sEmb e)
      else stage1_loop tEmb sEmb rest (i + 1) (best, bestSim)

/-- The stage-1 "FIRST: Check embedding distance with existing events"
block of `AIPostProcessService.detect_or_create_cluster` (main.py lines
695-739): the direct assignment, if any - the best event annotated in place
with `relevance_score := best_similarity`. -/
noncomputable def stage1_direct (cluster_threshold : ℝ) (tEmb sEmb : Vec)
    (existing_events : List Event) : Option Event :=
  if ¬ existing_events.isEmpty ∧ (tEmb ≠ [] ∨ sEmb ≠ []) then
    match stage1_loop tEmb sEmb existing_events 0 (none, 0) with
    | (some i, bestSim) =>
      if cluster_threshold ≤ bestSim then
        match existing_events[i]? with
        | some e => some { e with relevance_score := some bestSim }
        | none => none
      else none
    | (none, _) => none
  else none

/-- `AIPostProcessService.detect_or_create_cluster` (main.py lines 688-868)
with its observable effects.  The first component is the call as its caller
observes it; the final `except Exception` handler converts every raise that
reaches it into a `None` return, so no `Except.error` survives.  The text
arguments (topic name, article title/summary) only flow into the prompt
string and are omitted.  Falsy checks follow Python truthiness (`""` for
strings, `[]` for lists, `None` as `Option.none`). -/
noncomputable def detect_or_create_cluster (env : Env) (cluster_threshold : ℝ)
    (prompt_cluster_detection : Option String) (user_id topic_id : ℕ)
    (tEmb sEmb : Vec) : Except String (Option Event) × Effects :=
  match env.get_events with
  | Except.error _ => (Except.ok none, ⟨false, []⟩)
  | Except.ok existing_events =>
    match stage1_direct cluster_threshold tEmb sEmb existing_events with
    | some ev => (Except.ok (some ev), ⟨false, []⟩)
    | none =>
      match prompt_cluster_detection with
      | none => (Except.ok none, ⟨false, []⟩)
      | some p =>
        if p = "" then (Except.ok none, ⟨false, []⟩)
        else
          match env.llm_response with
          | Except.error _ => (Except.ok none, ⟨true, []⟩)
          | Except.ok none => (Except.ok none, ⟨true, []⟩)
          | Except.ok (some response) =>
            if response = "" then (Except.ok none, ⟨true, []⟩)
            else
              match env.parse response with
              | Except.error _ => (Except.ok none, ⟨true, []⟩)
              | Except.ok decision =>
                if decision.title = "" then (Except.ok none, ⟨true, []⟩)
                else
                  let call : CreateCall :=
                    ⟨user_id, topic_id, decision.title, decision.description,
                     decision.event_description⟩
                  match env.create_event with
                  | Except.error _ => (Except.ok none, ⟨true, [call]⟩)
                  | Except.ok none => (Except.ok none, ⟨true, [call]⟩)
                  | Except.ok (some ev) =>
                    (Except.ok (some { ev with relevance_score := some 1 }), ⟨true, [call]⟩)

end AIPostProcessService

/-- Events list as `ClusteringService._get_existing_events` yields it
(clustering_service.py lines 117-134): every backend failure is caught and
becomes `[]`. -/
def existing_events_of (env : Env) : List Event :=
  match env.get_events with
  | Except.error _ => []
  | Except.ok l => l

namespace ClusteringService

/-- Stage-1 of `ClusteringService.detect_or_create_cluster`
(clustering_service.py lines 91-104): `_find_similar_event_by_embedding`
delegating to `SimilarityCalculator.find_similar_events`; the result of a
direct match is returned as is (this version annotates `similarity_score`
but never sets `relevance_score`). -/
noncomputable def direct_match (tEmb sEmb : Vec) (events : List Event) (threshold : ℝ) :
    Option Event :=
  if ¬ events.isEmpty ∧ (tEmb ≠ [] ∨ sEmb ≠ []) then
    (SimilarityCalculator.find_similar_events tEmb sEmb events threshold).1
  else none

/-- `ClusteringService._analyze_clustering_with_llm` (clustering_service.py
lines 165-247).  A falsy prompt raises `ValueError` and the
`except ValueError: raise` clause re-raises it; a JSON parse failure also
re-raises, because `json.JSONDecodeError` is a subclass of `ValueError` and
the `except ValueError` clause is checked first; every other failure is
caught and becomes a `None` return (`_create_new_event_cluster` has its own
catch-all). -/
noncomputable def analyze_clustering_with_llm (env : Env)
    (prompt_cluster_detection : Option String) (user_id topic_id : ℕ) :
    Except String (Option Event) × Effects :=
  match prompt_cluster_detection with
  | none => (Except.error "Cluster detection prompt not available from database", ⟨false, []⟩)
  | some p =>
    if p = "" then
      (Except.error "Cluster detection prompt not available from database", ⟨false, []⟩)
    else
      match env.llm_response with
      | Except.error _ => (Except.ok none, ⟨true, []⟩)
      | Except.ok none => (Except.ok none, ⟨true, []⟩)
      | Except.ok (some response) =>
        if response = "" then (Except.ok none, ⟨true, []⟩)
        else
          match env.parse response with
          | Except.error e => (Except.error e, ⟨true, []⟩)
          | Except.ok decision =>
            if decision.title = "" then (Except.ok none, ⟨true, []⟩)
            else
              let call : CreateCall :=
                ⟨user_id, topic_id, decision.title, decision.description,
                 decision.event_description⟩
              match env.create_event with
              | Except.error _ => (Except.ok none, ⟨true, [call]⟩)
              | Except.ok none => (Except.ok none, ⟨true, [call]⟩)
              | Except.ok (some ev) =>
                (Except.ok (some { ev with relevance_score := some 1 }), ⟨true, [call]⟩)

/-- `ClusteringService.detect_or_create_cluster` (clustering_service.py
lines 60-115): `_get_existing_events` catches every backend failure and
returns `[]`; the final `except Exception` converts any raise from the body
- including the prompt `ValueError` re-raised by the reasoning stage - into
a `None` return. -/
noncomputable def detect_or_create_cluster (env : Env) (cluster_threshold : ℝ)
    (prompt_cluster_detection : Option String) (user_id topic_id : ℕ)
    (tEmb sEmb : Vec) : Except String (Option Event) × Effects :=
  match direct_match tEmb sEmb (existing_events_of env) cluster_threshold with
  | some ev => (Except.ok (some ev), ⟨false, []⟩)
  | none =>
    match analyze_clustering_with_llm env prompt_cluster_detection user_id topic_id with
    | (Except.error _, eff) => (Except.ok none, eff)
    | (Except.ok r, eff) => (Except.ok r, eff)

end ClusteringService

/-- C4: the claim states that `calculate_cosine_similarity` raises on a
dimension mismatch and never coerces it into a numeric result.  The code
contradicts its own docstring ("Raises: ValueError: If embeddings have
different dimensions"): the `ValueError` raised inside the `try:` block is
caught by the method's own `except Exception` handler, which returns `0.0`.
At the failing input `[1.0]` vs `[1.0, 0.0]` the body raises but the method
returns the number `0.0` to its caller. -/
theorem C4_dimension_mismatch_coerced_to_zero :
    calculate_cosine_similarity_body [(1 : ℝ)] [1, 0] =
      Except.error "Embedding dimension mismatch"
    ∧ calculate_cosine_similarity [(1 : ℝ)] [1, 0] = 0 := by
  constructor
  · simp [calculate_cosine_similarity_body]
  · simp [calculate_cosine_similarity, calculate_cosine_similarity_body]

/-- C8 counterexample: the claim "for every vector a,
`calculate_cosine_similarity(a, a)` is approximately 1.0" fails at the zero
vector `[0.0]`: sklearn leaves a zero row unnormalised, so the similarity is
exactly `0.0`, which is not within any reasonable tolerance of `1.0`. -/
theorem C8_zero_vector_counterexample :
    calculate_cosine_similarity [(0 : ℝ)] [0] = 0
    ∧ ¬ (|calculate_cosine_similarity [(0 : ℝ)] [0] - 1| ≤ 1 / 2) := by
  have h : calculate_cosine_similarity [(0 : ℝ)] [0] = 0 := by
    simp [calculate_cosine_similarity, calculate_cosine_similarity_body,
      sklearn_cosine, sklNorm, dot]
  refine ⟨h, ?_⟩
  rw [h]
  norm_num

/-- C8 (amended): for every vector `a` with nonzero norm
(`dot a a ≠ 0`, i.e. a nonzero vector), `calculate_cosine_similarity a a`
is exactly 1 (hence approximately 1.0). -/
theorem C8_self_similarity (a : Vec) (h : dot a a ≠ 0) :
    calculate_cosine_similarity a a = 1 := by
  unfold calculate_cosine_similarity calculate_cosine_similarity_body
  simp only [ne_eq, not_true_eq_false, if_false, ite_not]
  exact sklearn_cosine_self a h

/-- C8 witness: the amended theorem applied at the concrete vector `[2.0]`. -/
theorem C8_self_similarity_witness :
    dot [(2 : ℝ)] [2] ≠ 0 ∧ calculate_cosine_similarity [(2 : ℝ)] [2] = 1 := by
  have h : dot [(2 : ℝ)] [2] ≠ 0 := by norm_num [dot]
  exact ⟨h, C8_self_similarity [2] h⟩

lemma ite_lt_eq_max (t s : ℝ) : (if s < t then t else s) = max t s := by
  rcases lt_or_le s t with h | h
  · rw [if_pos h, max_eq_left h.le]
  · rw [if_neg (not_lt.mpr h), max_eq_right h]

lemma SC_ann_vec_nil {tEmb sEmb : Vec} {θ : ℝ} {u : Topic} (hv : u.topic_vector = []) :
    SimilarityCalculator.topic_entry tEmb sEmb θ u = none := by
  simp [SimilarityCalculator.topic_entry, hv]

lemma SC_ann_no_emb {tEmb sEmb : Vec} {θ : ℝ} {u : Topic} (ht : tEmb = []) (hs : sEmb = []) :
    SimilarityCalculator.topic_entry tEmb sEmb θ u = none := by
  by_cases hv : u.topic_vector = []
  · exact SC_ann_vec_nil hv
  · simp [SimilarityCalculator.topic_entry, hv, ht, hs]

lemma SC_ann_title_only {tEmb sEmb : Vec} {θ : ℝ} {u : Topic}
    (hv : u.topic_vector ≠ []) (ht : tEmb ≠ []) (hs : sEmb = []) :
    SimilarityCalculator.topic_entry tEmb sEmb θ u =
      (if θ ≤ calculate_cosine_similarity tEmb u.topic_vector then
        some { u with
               similarity_score := some (calculate_cosine_similarity tEmb u.topic_vector)
               similarity_source := some "title"
               title_similarity := some (calculate_cosine_similarity tEmb u.topic_vector) }
      else none) := by
  simp [SimilarityCalculator.topic_entry, hv, ht, hs]

lemma SC_ann_summary_only {tEmb sEmb : Vec} {θ : ℝ} {u : Topic}
    (hv : u.topic_vector ≠ []) (ht : tEmb = []) (hs : sEmb ≠ []) :
    SimilarityCalculator.topic_entry tEmb sEmb θ u =
      (if θ ≤ calculate_cosine_similarity sEmb u.topic_vector then
        some { u with
               similarity_score := some (calculate_cosine_similarity sEmb u.topic_vector)
               similarity_source := some "summary"
               summary_similarity := some (calculate_cosine_similarity sEmb u.topic_vector) }
      else none) := by
  simp [SimilarityCalculator.topic_entry, hv, ht, hs]

lemma SC_ann_both {tEmb sEmb : Vec} {θ : ℝ} {u : Topic}
    (hv : u.topic_vector ≠ []) (ht : tEmb ≠ []) (hs : sEmb ≠ []) :
    SimilarityCalculator.topic_entry tEmb sEmb θ u =
      (if θ ≤ max (calculate_cosine_similarity tEmb u.topic_vector)
                  (calculate_cosine_similarity sEmb u.topic_vector) then
        some { u with
               similarity_score := some (max (calculate_cosine_similarity tEmb u.topic_vector)
                                             (calculate_cosine_similarity sEmb u.topic_vector))
               similarity_source := some (if calculate_cosine_similarity sEmb u.topic_vector <
                                             calculate_cosine_similarity tEmb u.topic_vector
                                          then "title" else "summary")
               title_similarity := some (calculate_cosine_similarity tEmb u.topic_vector)
               summary_similarity := some (calculate_cosine_similarity sEmb u.topic_vector) }
      else none) := by
  simp [SimilarityCalculator.topic_entry, hv, ht, hs, ite_lt_eq_max]

lemma finalScore_title_only {tEmb sEmb v : Vec} (ht : tEmb ≠ []) (hs : sEmb = []) :
    finalScore tEmb sEmb v = calculate_cosine_similarity tEmb v := by
  simp [finalScore, ht, hs]

lemma finalScore_summary_only {tEmb sEmb v : Vec} (ht : tEmb = []) :
    finalScore tEmb sEmb v = calculate_cosine_similarity sEmb v := by
  simp [finalScore, ht]

lemma finalScore_both {tEmb sEmb v : Vec} (ht : tEmb ≠ []) (hs : sEmb ≠ []) :
    finalScore tEmb sEmb v =
      max (calculate_cosine_similarity tEmb v) (calculate_cosine_similarity sEmb v) := by
  simp [finalScore, ht, hs]

lemma SC_ann_some_facts {tEmb sEmb : Vec} {θ : ℝ} {u t' : Topic}
    (h : SimilarityCalculator.topic_entry tEmb sEmb θ u = some t') :
    u.topic_vector ≠ [] ∧ (tEmb ≠ [] ∨ sEmb ≠ []) ∧
    t'.id = u.id ∧ t'.user_id = u.user_id ∧ t'.name = u.name ∧
    t'.topic_vector = u.topic_vector ∧
    t'.similarity_score = some (finalScore tEmb sEmb u.topic_vector) ∧
    θ ≤ finalScore tEmb sEmb u.topic_vector := by
  by_cases hv : u.topic_vector = []
  · rw [SC_ann_vec_nil hv] at h
    exact absurd h (by simp)
  · by_cases ht : tEmb = [] <;> by_cases hs : sEmb = []
    · rw [SC_ann_no_emb ht hs] at h
      exact absurd h (by simp)
    · rw [SC_ann_summary_only hv ht hs] at h
      by_cases hc : θ ≤ calculate_cosine_similarity sEmb u.topic_vector
      · rw [if_pos hc] at h
        obtain rfl := (Option.some_inj.mp h).symm
        refine ⟨hv, Or.inr hs, rfl, rfl, rfl, rfl, ?_, ?_⟩ <;>
          simp [finalScore_summary_only ht, hc]
      · rw [if_neg hc] at h
        exact absurd h (by simp)
    · rw [SC_ann_title_only hv ht hs] at h
      by_cases hc : θ ≤ calculate_cosine_similarity tEmb u.topic_vector
      · rw [if_pos hc] at h
        obtain rfl := (Option.some_inj.mp h).symm
        refine ⟨hv, Or.inl ht, rfl, rfl, rfl, rfl, ?_, ?_⟩ <;>
          simp [finalScore_title_only ht hs, hc]
      · rw [if_neg hc] at h
        exact absurd h (by simp)
    · rw [SC_ann_both hv ht hs] at h
      by_cases hc : θ ≤ max (calculate_cosine_similarity tEmb u.topic_vector)
          (calculate_cosine_similarity sEmb u.topic_vector)
      · rw [if_pos hc] at h
        obtain rfl := (Option.some_inj.mp h).symm
        refine ⟨hv, Or.inl ht, rfl, rfl, rfl, rfl, ?_, ?_⟩ <;>
          simp [finalScore_both ht hs, hc]
      · rw [if_neg hc] at h
        exact absurd h (by simp)

lemma SC_ann_passes {tEmb sEmb : Vec} {θ : ℝ} {u : Topic}
    (hv : u.topic_vector ≠ []) (hemb : tEmb ≠ [] ∨ sEmb ≠ [])
    (hθ : θ ≤ finalScore tEmb sEmb u.topic_vector) :
    ∃ t', SimilarityCalculator.topic_entry tEmb sEmb θ u = some t' := by
  by_cases ht : tEmb = [] <;> by_cases hs : sEmb = []
  · exact absurd hemb (by simp [ht, hs])
  · rw [SC_ann_summary_only hv ht hs,
      if_pos (by rw [← finalScore_summary_only (v := u.topic_vector) ht]; exact hθ)]
    exact ⟨_, rfl⟩
  · rw [SC_ann_title_only hv ht hs,
      if_pos (by rw [← finalScore_title_only (v := u.topic_vector) ht hs]; exact hθ)]
    exact ⟨_, rfl⟩
  · rw [SC_ann_both hv ht hs,
      if_pos (by rw [← finalScore_both (v := u.topic_vector) ht hs]; exact hθ)]
    exact ⟨_, rfl⟩

lemma SC_ann_source_facts {tEmb sEmb : Vec} {θ : ℝ} {u t' : Topic}
    (h : SimilarityCalculator.topic_entry tEmb sEmb θ u = some t') (ht : tEmb ≠ []) :
    (sEmb = [] →
       t'.similarity_source = some "title" ∧
       t'.similarity_score = some (calculate_cosine_similarity tEmb u.topic_vector)) ∧
    (sEmb ≠ [] →
       t'.similarity_score = some (max (calculate_cosine_similarity tEmb u.topic_vector)
                                       (calculate_cosine_similarity sEmb u.topic_vector)) ∧
       ((t'.similarity_source = some "title" ∧
           t'.similarity_score = some (calculate_cosine_similarity tEmb u.topic_vector)) ∨
        (t'.similarity_source = some "summary" ∧
           t'.similarity_score = some (calculate_cosine_similarity sEmb u.topic_vector)))) := by
  by_cases hv : u.topic_vector = []
  · rw [SC_ann_vec_nil hv] at h
    exact absurd h (by simp)
  · by_cases hs : sEmb = []
    · rw [SC_ann_title_only hv ht hs] at h
      by_cases hc : θ ≤ calculate_cosine_similarity tEmb u.topic_vector
      · rw [if_pos hc] at h
        obtain rfl := (Option.some_inj.mp h).symm
        exact ⟨fun _ => ⟨rfl, rfl⟩, fun hs2 => absurd hs hs2.elim⟩
      · rw [if_neg hc] at h
        exact absurd h (by simp)
    · rw [SC_ann_both hv ht hs] at h
      by_cases hc : θ ≤ max (calculate_cosine_similarity tEmb u.topic_vector)
          (calculate_cosine_similarity sEmb u.topic_vector)
      · rw [if_pos hc] at h
        obtain rfl := (Option.some_inj.mp h).symm
        refine ⟨fun hs2 => absurd hs2 hs, fun _ => ⟨rfl, ?_⟩⟩
        by_cases hlt : calculate_cosine_similarity sEmb u.topic_vector <
            calculate_cosine_similarity tEmb u.topic_vector
        · exact Or.inl ⟨by simp [hlt], by simp [max_eq_left hlt.le]⟩
        · exact Or.inr ⟨by simp [hlt], by simp [max_eq_right (not_lt.mp hlt)]⟩
      · rw [if_neg hc] at h
        exact absurd h (by simp)

lemma SC_out_some {d θ : ℝ} {tEmb sEmb : Vec} {topics : List Topic}
    (hemb : ¬ (tEmb = [] ∧ sEmb = [])) (hθ : θ ≠ 0) :
    (SimilarityCalculator.find_similar_topics d tEmb sEmb topics (some θ)).1 =
      (topics.filterMap (SimilarityCalculator.topic_entry tEmb sEmb θ)).mergeSort
        scoreGE := by
  by_cases htop : topics.isEmpty
  · obtain rfl : topics = [] := by
      cases topics with
      | nil => rfl
      | cons a l => simp at htop
    simp [SimilarityCalculator.find_similar_topics]
  · simp [SimilarityCalculator.find_similar_topics, htop, hemb, hθ]

lemma SC_out_shape {d : ℝ} {tEmb sEmb : Vec} {topics : List Topic} {th : Option ℝ}
    (hemb : ¬ (tEmb = [] ∧ sEmb = [])) :
    ∃ θe : ℝ, (SimilarityCalculator.find_similar_topics d tEmb sEmb topics th).1 =
      (topics.filterMap (SimilarityCalculator.topic_entry tEmb sEmb θe)).mergeSort
        scoreGE := by
  by_cases htop : topics.isEmpty
  · obtain rfl : topics = [] := by
      cases topics with
      | nil => rfl
      | cons a l => simp at htop
    exact ⟨d, by simp [SimilarityCalculator.find_similar_topics]⟩
  · cases th with
    | none => exact ⟨d, by simp [SimilarityCalculator.find_similar_topics, htop, hemb]⟩
    | some t =>
      by_cases h0 : t = 0
      · exact ⟨d, by simp [SimilarityCalculator.find_similar_topics, htop, hemb, h0]⟩
      · exact ⟨t, by simp [SimilarityCalculator.find_similar_topics, htop, hemb, h0]⟩

lemma scoreGE_trans (a b c : Topic) (h1 : scoreGE a b = true) (h2 : scoreGE b c = true) :
    scoreGE a c = true := by
  simp only [scoreGE, decide_eq_true_eq] at h1 h2 ⊢
  exact le_trans h2 h1

lemma scoreGE_total (a b : Topic) : (scoreGE a b || scoreGE b a) = true := by
  simp only [scoreGE, Bool.or_eq_true, decide_eq_true_eq]
  exact le_total (scoreOf b) (scoreOf a)

/-- C6 (amended): for every candidate list, at least one supplied embedding
and every nonzero explicit threshold θ, `find_similar_topics` returns
exactly the annotated copies of the candidates whose final score is ≥ θ
(a permutation of the filtered list, with both membership directions),
sorted descending by score, and stably: survivors with equal scores keep
their input order.  (An explicit threshold of 0.0 is falsy in Python and is
silently replaced by the default, which is what the counterexample
exhibits.) -/
theorem C6_find_similar_topics_filter_sort_stable
    (d θ : ℝ) (tEmb sEmb : Vec) (topics : List Topic)
    (hemb : tEmb ≠ [] ∨ sEmb ≠ []) (hθ : θ ≠ 0) :
    ((SimilarityCalculator.find_similar_topics d tEmb sEmb topics (some θ)).1).Perm
        (topics.filterMap (SimilarityCalculator.topic_entry tEmb sEmb θ))
    ∧ (∀ t' ∈ (SimilarityCalculator.find_similar_topics d tEmb sEmb topics (some θ)).1,
        ∃ u ∈ topics, SimilarityCalculator.topic_entry tEmb sEmb θ u = some t'
          ∧ t'.similarity_score = some (finalScore tEmb sEmb u.topic_vector)
          ∧ θ ≤ finalScore tEmb sEmb u.topic_vector)
    ∧ (∀ u ∈ topics, u.topic_vector ≠ [] → θ ≤ finalScore tEmb sEmb u.topic_vector →
        ∃ t' ∈ (SimilarityCalculator.find_similar_topics d tEmb sEmb topics (some θ)).1,
          SimilarityCalculator.topic_entry tEmb sEmb θ u = some t')
    ∧ ((SimilarityCalculator.find_similar_topics d tEmb sEmb topics (some θ)).1).Pairwise
        (fun a b => scoreOf b ≤ scoreOf a)
    ∧ (∀ a b : Topic,
        List.Sublist [a, b]
            (topics.filterMap (SimilarityCalculator.topic_entry tEmb sEmb θ))
        → scoreOf a = scoreOf b
        → List.Sublist [a, b]
            (SimilarityCalculator.find_similar_topics d tEmb sEmb topics (some θ)).1) := by
  have hne : ¬ (tEmb = [] ∧ sEmb = []) := by
    rcases hemb with h | h
    · exact fun hc => h hc.1
    · exact fun hc => h hc.2
  have hout := @SC_out_some d θ tEmb sEmb topics hne hθ
  rw [hout]
  refine ⟨List.mergeSort_perm _ _, ?_, ?_, ?_, ?_⟩
  · intro t' ht'
    rw [List.mem_mergeSort] at ht'
    obtain ⟨u, hu, hann⟩ := List.mem_filterMap.mp ht'
    obtain ⟨_, _, _, _, _, _, hscore, hθ2⟩ := SC_ann_some_facts hann
    exact ⟨u, hu, hann, hscore, hθ2⟩
  · intro u hu hv hθ2
    obtain ⟨t', hann⟩ := SC_ann_passes hv hemb hθ2
    exact ⟨t', List.mem_mergeSort.mpr (List.mem_filterMap.mpr ⟨u, hu, hann⟩), hann⟩
  · have hp := List.sorted_mergeSort scoreGE_trans scoreGE_total
      (topics.filterMap (SimilarityCalculator.topic_entry tEmb sEmb θ))
    refine hp.imp ?_
    intro a b h
    simpa [scoreGE, decide_eq_true_eq] using h
  · intro a b hsub heq
    refine List.pair_sublist_mergeSort scoreGE_trans scoreGE_total ?_ hsub
    simp [scoreGE, heq.ge]

/-- C6 witness: the amended theorem applied at one title embedding, one
candidate and the explicit threshold 0.5: the output is sorted descending
by score. -/
theorem C6_find_similar_topics_witness :
    ((SimilarityCalculator.find_similar_topics (3 / 10) [(1 : ℝ), 0] []
        [⟨1, 1, "t", [1, 0], none, none, none, none⟩] (some (1 / 2))).1).Pairwise
      (fun a b => scoreOf b ≤ scoreOf a) :=
  (C6_find_similar_topics_filter_sort_stable (3 / 10) (1 / 2) [(1 : ℝ), 0] []
    [⟨1, 1, "t", [1, 0], none, none, none, none⟩]
    (Or.inl (by simp)) (by norm_num)).2.2.2.1

/-- C6 counterexample: with the explicit threshold 0.0 the claim fails, as
Python's `threshold or self.default_threshold` replaces the falsy 0.0 with
the default 0.3: the candidate `[0, 1]` scores exactly 0 against the title
embedding `[1, 0]`, so its score is ≥ the requested threshold 0, yet the
returned list is empty. -/
theorem C6_zero_threshold_counterexample :
    (⟨1, 1, "t", [0, 1], none, none, none, none⟩ : Topic).topic_vector ≠ []
    ∧ finalScore [(1 : ℝ), 0] [] [0, 1] = 0
    ∧ (SimilarityCalculator.find_similar_topics (3 / 10) [(1 : ℝ), 0] []
        [⟨1, 1, "t", [0, 1], none, none, none, none⟩] (some 0)).1 = [] := by
  have hdot : dot [(1 : ℝ), 0] [0, 1] = 0 := by norm_num [dot]
  have hcos : calculate_cosine_similarity [(1 : ℝ), 0] [0, 1] = 0 := by
    unfold calculate_cosine_similarity calculate_cosine_similarity_body
    simp [sklearn_cosine, hdot]
  refine ⟨by simp, ?_, ?_⟩
  · rw [finalScore_title_only (by simp) rfl, hcos]
  · have hann : SimilarityCalculator.topic_entry [(1 : ℝ), 0] [] (3 / 10)
        ⟨1, 1, "t", [0, 1], none, none, none, none⟩ = none := by
      rw [SC_ann_title_only (by simp) (by simp) rfl]
      simp only [hcos]
      norm_num
    simp [SimilarityCalculator.find_similar_topics, hann]

/-- C7: every topic returned by `find_similar_topics` is scored with the
title similarity alone when only a title embedding is supplied, and with
the maximum of the title and summary similarities when both are supplied;
the recorded `similarity_source` names the similarity that equals the
recorded score. -/
theorem C7_dual_embedding_max_and_source
    (d : ℝ) (tEmb sEmb : Vec) (topics : List Topic) (th : Option ℝ) (ht : tEmb ≠ []) :
    ∀ t' ∈ (SimilarityCalculator.find_similar_topics d tEmb sEmb topics th).1,
      ∃ u ∈ topics, t'.topic_vector = u.topic_vector ∧
        (sEmb = [] →
           t'.similarity_score = some (calculate_cosine_similarity tEmb u.topic_vector) ∧
           t'.similarity_source = some "title") ∧
        (sEmb ≠ [] →
           t'.similarity_score = some (max (calculate_cosine_similarity tEmb u.topic_vector)
               (calculate_cosine_similarity sEmb u.topic_vector)) ∧
           ((t'.similarity_source = some "title" ∧
               t'.similarity_score = some (calculate_cosine_similarity tEmb u.topic_vector)) ∨
            (t'.similarity_source = some "summary" ∧
               t'.similarity_score = some (calculate_cosine_similarity sEmb u.topic_vector)))) := by
  have hne : ¬ (tEmb = [] ∧ sEmb = []) := fun hc => ht hc.1
  obtain ⟨θe, hout⟩ := SC_out_shape (d := d) hne
  rw [hout]
  intro t' ht'
  rw [List.mem_mergeSort] at ht'
  obtain ⟨u, hu, hann⟩ := List.mem_filterMap.mp ht'
  obtain ⟨hsrc1, hsrc2⟩ := SC_ann_source_facts hann ht
  obtain ⟨_, _, _, _, _, hvec, _, _⟩ := SC_ann_some_facts hann
  exact ⟨u, hu, hvec, fun hs => ⟨(hsrc1 hs).2, (hsrc1 hs).1⟩, hsrc2⟩

/-- C7 witness: the theorem applied with both embeddings supplied
(title `[1, 0]`, summary `[0, 1]`) against the candidate `[0, 1]`, where
the summary similarity is the higher one. -/
theorem C7_dual_embedding_witness :
    ∃ u ∈ [(⟨1, 1, "t", [0, 1], none, none, none, none⟩ : Topic)],
      (⟨1, 1, "t", [0, 1], some 1, some "summary", some 0, some 1⟩ : Topic).topic_vector =
        u.topic_vector ∧
      (([0, 1] : Vec) = [] →
         (⟨1, 1, "t", [0, 1], some 1, some "summary", some 0, some 1⟩ : Topic).similarity_score =
           some (calculate_cosine_similarity [(1 : ℝ), 0] u.topic_vector) ∧
         (⟨1, 1, "t", [0, 1], some 1, some "summary", some 0, some 1⟩ : Topic).similarity_source =
           some "title") ∧
      (([0, 1] : Vec) ≠ [] →
         (⟨1, 1, "t", [0, 1], some 1, some "summary", some 0, some 1⟩ : Topic).similarity_score =
           some (max (calculate_cosine_similarity [(1 : ℝ), 0] u.topic_vector)
             (calculate_cosine_similarity [0, 1] u.topic_vector)) ∧
         (((⟨1, 1, "t", [0, 1], some 1, some "summary", some 0, some 1⟩ : Topic).similarity_source =
             some "title" ∧
           (⟨1, 1, "t", [0, 1], some 1, some "summary", some 0, some 1⟩ : Topic).similarity_score =
             some (calculate_cosine_similarity [(1 : ℝ), 0] u.topic_vector)) ∨
          ((⟨1, 1, "t", [0, 1], some 1, some "summary", some 0, some 1⟩ : Topic).similarity_source =
             some "summary" ∧
           (⟨1, 1, "t", [0, 1], some 1, some "summary", some 0, some 1⟩ : Topic).similarity_score =
             some (calculate_cosine_similarity [0, 1] u.topic_vector)))) := by
  have hd01 : dot [(1 : ℝ), 0] [0, 1] = 0 := by norm_num [dot]
  have hd11 : dot [(0 : ℝ), 1] [0, 1] = 1 := by norm_num [dot]
  have hn : sklNorm [(0 : ℝ), 1] = 1 := by
    have : dot [(0 : ℝ), 1] [0, 1] = 1 := hd11
    simp [sklNorm, this, Real.sqrt_one]
  have hct : calculate_cosine_similarity [(1 : ℝ), 0] [0, 1] = 0 := by
    unfold calculate_cosine_similarity calculate_cosine_similarity_body
    simp [sklearn_cosine, hd01]
  have hcs : calculate_cosine_similarity [(0 : ℝ), 1] [0, 1] = 1 := by
    unfold calculate_cosine_similarity calculate_cosine_similarity_body
    simp [sklearn_cosine, hd11, hn]
  have hmax : max (0 : ℝ) 1 = 1 := max_eq_right zero_le_one
  have hann : SimilarityCalculator.topic_entry [(1 : ℝ), 0] [0, 1] (3 / 10)
      ⟨1, 1, "t", [0, 1], none, none, none, none⟩ =
      some ⟨1, 1, "t", [0, 1], some 1, some "summary", some 0, some 1⟩ := by
    rw [SC_ann_both (by simp) (by simp) (by simp)]
    norm_num [hct, hcs, hmax]
  have hout : (SimilarityCalculator.find_similar_topics (3 / 10) [(1 : ℝ), 0] [0, 1]
      [⟨1, 1, "t", [0, 1], none, none, none, none⟩] none).1 =
      [⟨1, 1, "t", [0, 1], some 1, some "summary", some 0, some 1⟩] := by
    simp [SimilarityCalculator.find_similar_topics, hann]
  exact C7_dual_embedding_max_and_source (3 / 10) [(1 : ℝ), 0] [0, 1]
    [⟨1, 1, "t", [0, 1], none, none, none, none⟩] none (by simp)
    ⟨1, 1, "t", [0, 1], some 1, some "summary", some 0, some 1⟩ (by rw [hout]; simp)

lemma sklearn_cosine_comm (a b : Vec) : sklearn_cosine a b = sklearn_cosine b a := by
  unfold sklearn_cosine
  rw [dot_comm, mul_comm]

lemma dualMax_title_only {tEmb sEmb v : Vec} (ht : tEmb ≠ []) (hs : sEmb = []) :
    dualMax tEmb sEmb v = sklearn_cosine tEmb v := by
  simp [dualMax, ht, hs]

lemma dualMax_summary_only {tEmb sEmb v : Vec} (ht : tEmb = []) :
    dualMax tEmb sEmb v = sklearn_cosine sEmb v := by
  simp [dualMax, ht]

lemma dualMax_both {tEmb sEmb v : Vec} (ht : tEmb ≠ []) (hs : sEmb ≠ []) :
    dualMax tEmb sEmb v = max (sklearn_cosine tEmb v) (sklearn_cosine sEmb v) := by
  simp [dualMax, ht, hs]

lemma APS_ann_vec_nil {tEmb sEmb : Vec} {θ : ℝ} {u : Topic} (hv : u.topic_vector = []) :
    AIPostProcessService.topic_entry tEmb sEmb θ u = Except.ok none := by
  simp [AIPostProcessService.topic_entry, hv]

lemma APS_ann_no_emb {tEmb sEmb : Vec} {θ : ℝ} {u : Topic} (ht : tEmb = []) (hs : sEmb = []) :
    AIPostProcessService.topic_entry tEmb sEmb θ u = Except.ok none := by
  by_cases hv : u.topic_vector = []
  · exact APS_ann_vec_nil hv
  · simp [AIPostProcessService.topic_entry, hv, ht, hs]

lemma APS_ann_title_only {tEmb sEmb : Vec} {θ : ℝ} {u : Topic}
    (hv : u.topic_vector ≠ []) (ht : tEmb ≠ []) (hs : sEmb = [])
    (hd : tEmb.length = u.topic_vector.length) :
    AIPostProcessService.topic_entry tEmb sEmb θ u =
      Except.ok (if θ ≤ sklearn_cosine tEmb u.topic_vector then
        some { u with
               similarity_score := some (sklearn_cosine tEmb u.topic_vector)
               similarity_source := some "title"
               title_similarity := some (sklearn_cosine tEmb u.topic_vector) }
      else none) := by
  simp [AIPostProcessService.topic_entry, hv, ht, hs, hd, apply_ite]

lemma APS_ann_summary_only {tEmb sEmb : Vec} {θ : ℝ} {u : Topic}
    (hv : u.topic_vector ≠ []) (ht : tEmb = []) (hs : sEmb ≠ [])
    (hd : sEmb.length = u.topic_vector.length) :
    AIPostProcessService.topic_entry tEmb sEmb θ u =
      Except.ok (if θ ≤ sklearn_cosine sEmb u.topic_vector then
        some { u with
               similarity_score := some (sklearn_cosine sEmb u.topic_vector)
               similarity_source := some "summary"
               summary_similarity := some (sklearn_cosine sEmb u.topic_vector) }
      else none) := by
  simp [AIPostProcessService.topic_entry, hv, ht, hs, hd, apply_ite]

lemma APS_ann_both {tEmb sEmb : Vec} {θ : ℝ} {u : Topic}
    (hv : u.topic_vector ≠ []) (ht : tEmb ≠ []) (hs : sEmb ≠ [])
    (hdt : tEmb.length = u.topic_vector.length)
    (hds : sEmb.length = u.topic_vector.length) :
    AIPostProcessService.topic_entry tEmb sEmb θ u =
      Except.ok (if θ ≤ max (sklearn_cosine tEmb u.topic_vector)
                            (sklearn_cosine sEmb u.topic_vector) then
        some { u with
               similarity_score := some (max (sklearn_cosine tEmb u.topic_vector)
                                             (sklearn_cosine sEmb u.topic_vector))
               similarity_source := some (if sklearn_cosine sEmb u.topic_vector <
                                             sklearn_cosine tEmb u.topic_vector
                                          then "title" else "summary")
               title_similarity := some (sklearn_cosine tEmb u.topic_vector)
               summary_similarity := some (sklearn_cosine sEmb u.topic_vector) }
      else none) := by
  simp [AIPostProcessService.topic_entry, hv, ht, hs, hdt, hds, apply_ite]
  split
  · rename_i hcond
    intro hlt
    rcases hcond with h | h
    · exact absurd h (not_le.mpr hlt)
    · exact h
  · rename_i hcond
    push_neg at hcond
    exact hcond

lemma APS_ann_some_facts {tEmb sEmb : Vec} {θ : ℝ} {u t' : Topic}
    (h : AIPostProcessService.topic_entry tEmb sEmb θ u = Except.ok (some t')) :
    u.topic_vector ≠ [] ∧ (tEmb ≠ [] ∨ sEmb ≠ []) ∧
    t'.id = u.id ∧ t'.topic_vector = u.topic_vector ∧
    t'.similarity_score = some (dualMax tEmb sEmb u.topic_vector) ∧
    θ ≤ dualMax tEmb sEmb u.topic_vector := by
  by_cases hv : u.topic_vector = []
  · rw [APS_ann_vec_nil hv] at h
    exact absurd h (by simp)
  · by_cases ht : tEmb = [] <;> by_cases hs : sEmb = []
    · rw [APS_ann_no_emb ht hs] at h
      exact absurd h (by simp)
    · by_cases hd : sEmb.length = u.topic_vector.length
      · rw [APS_ann_summary_only hv ht hs hd] at h
        by_cases hc : θ ≤ sklearn_cosine sEmb u.topic_vector
        · rw [if_pos hc] at h
          obtain rfl := (Option.some_inj.mp (Except.ok.inj h)).symm
          refine ⟨hv, Or.inr hs, rfl, rfl, ?_, ?_⟩ <;>
            simp [dualMax_summary_only ht, hc]
        · rw [if_neg hc] at h
          exact absurd h (by simp)
      · simp [AIPostProcessService.topic_entry, hv, ht, hs, hd] at h
    · by_cases hd : tEmb.length = u.topic_vector.length
      · rw [APS_ann_title_only hv ht hs hd] at h
        by_cases hc : θ ≤ sklearn_cosine tEmb u.topic_vector
        · rw [if_pos hc] at h
          obtain rfl := (Option.some_inj.mp (Except.ok.inj h)).symm
          refine ⟨hv, Or.inl ht, rfl, rfl, ?_, ?_⟩ <;>
            simp [dualMax_title_only ht hs, hc]
        · rw [if_neg hc] at h
          exact absurd h (by simp)
      · simp [AIPostProcessService.topic_entry, hv, ht, hs, hd] at h
    · by_cases hdt : tEmb.length = u.topic_vector.length
      · by_cases hds : sEmb.length = u.topic_vector.length
        · rw [APS_ann_both hv ht hs hdt hds] at h
          by_cases hc : θ ≤ max (sklearn_cosine tEmb u.topic_vector)
              (sklearn_cosine sEmb u.topic_vector)
          · rw [if_pos hc] at h
            obtain rfl := (Option.some_inj.mp (Except.ok.inj h)).symm
            refine ⟨hv, Or.inl ht, rfl, rfl, ?_, ?_⟩ <;>
              simp [dualMax_both ht hs, hc]
          · rw [if_neg hc] at h
            exact absurd h (by simp)
        · simp [AIPostProcessService.topic_entry, hv, ht, hs, hds] at h
      · simp [AIPostProcessService.topic_entry, hv, ht, hs, hdt] at h

lemma APS_ann_passes {tEmb sEmb : Vec} {θ : ℝ} {u : Topic}
    (hv : u.topic_vector ≠ []) (hemb : tEmb ≠ [] ∨ sEmb ≠ [])
    (hdt : tEmb ≠ [] → tEmb.length = u.topic_vector.length)
    (hds : sEmb ≠ [] → sEmb.length = u.topic_vector.length)
    (hθ : θ ≤ dualMax tEmb sEmb u.topic_vector) :
    ∃ t', AIPostProcessService.topic_entry tEmb sEmb θ u = Except.ok (some t') := by
  by_cases ht : tEmb = [] <;> by_cases hs : sEmb = []
  · exact absurd hemb (by simp [ht, hs])
  · rw [APS_ann_summary_only hv ht hs (hds hs),
      if_pos (by rw [← dualMax_summary_only (v := u.topic_vector) ht]; exact hθ)]
    exact ⟨_, rfl⟩
  · rw [APS_ann_title_only hv ht hs (hdt ht),
      if_pos (by rw [← dualMax_title_only (v := u.topic_vector) ht hs]; exact hθ)]
    exact ⟨_, rfl⟩
  · rw [APS_ann_both hv ht hs (hdt ht) (hds hs),
      if_pos (by rw [← dualMax_both (v := u.topic_vector) ht hs]; exact hθ)]
    exact ⟨_, rfl⟩

lemma APS_ann_no_error {tEmb sEmb : Vec} {θ : ℝ} {u : Topic}
    (hdt : tEmb ≠ [] → u.topic_vector ≠ [] → tEmb.length = u.topic_vector.length)
    (hds : sEmb ≠ [] → u.topic_vector ≠ [] → sEmb.length = u.topic_vector.length) :
    ∃ r, AIPostProcessService.topic_entry tEmb sEmb θ u = Except.ok r := by
  by_cases hv : u.topic_vector = []
  · exact ⟨none, APS_ann_vec_nil hv⟩
  · by_cases ht : tEmb = [] <;> by_cases hs : sEmb = []
    · exact ⟨none, APS_ann_no_emb ht hs⟩
    · rw [APS_ann_summary_only hv ht hs (hds hs hv)]
      exact ⟨_, rfl⟩
    · rw [APS_ann_title_only hv ht hs (hdt ht hv)]
      exact ⟨_, rfl⟩
    · rw [APS_ann_both hv ht hs (hdt ht hv) (hds hs hv)]
      exact ⟨_, rfl⟩

lemma topics_loop_mem {tEmb sEmb : Vec} {th : ℝ} :
    ∀ {l res : List Topic},
      AIPostProcessService.topics_loop tEmb sEmb th l = Except.ok res →
      ∀ t', t' ∈ res ↔
        ∃ u ∈ l, AIPostProcessService.topic_entry tEmb sEmb th u = Except.ok (some t') := by
  intro l
  induction l with
  | nil =>
    intro res h t'
    unfold AIPostProcessService.topics_loop at h
    obtain rfl : ([] : List Topic) = res := Except.ok.inj h
    simp
  | cons a rest ih =>
    intro res h t'
    unfold AIPostProcessService.topics_loop at h
    cases hann : AIPostProcessService.topic_entry tEmb sEmb th a with
    | error e =>
      rw [hann] at h
      exact absurd h (by simp)
    | ok r =>
      rw [hann] at h
      cases r with
      | none =>
        have hiff := ih h t'
        rw [hiff]
        constructor
        · rintro ⟨u, hu, h2⟩
          exact ⟨u, List.mem_cons_of_mem _ hu, h2⟩
        · rintro ⟨u, hu, h2⟩
          rcases List.mem_cons.mp hu with rfl | hu2
          · rw [hann] at h2
            exact absurd (Except.ok.inj h2) (by simp)
          · exact ⟨u, hu2, h2⟩
      | some t =>
        cases hrest : AIPostProcessService.topics_loop tEmb sEmb th rest with
        | error e =>
          rw [hrest] at h
          exact absurd h (by simp)
        | ok l2 =>
          rw [hrest] at h
          obtain rfl : t :: l2 = res := Except.ok.inj h
          constructor
          · intro hm
            rcases List.mem_cons.mp hm with rfl | hm2
            · exact ⟨a, List.mem_cons_self a rest, hann⟩
            · obtain ⟨u, hu, h2⟩ := (ih hrest t').mp hm2
              exact ⟨u, List.mem_cons_of_mem _ hu, h2⟩
          · rintro ⟨u, hu, h2⟩
            rcases List.mem_cons.mp hu with rfl | hu2
            · rw [hann] at h2
              obtain rfl := Option.some_inj.mp (Except.ok.inj h2)
              exact List.mem_cons_self _ _
            · exact List.mem_cons_of_mem _ ((ih hrest t').mpr ⟨u, hu2, h2⟩)

lemma topics_loop_ok {tEmb sEmb : Vec} {th : ℝ} :
    ∀ {l : List Topic},
      (∀ u ∈ l, (tEmb ≠ [] → u.topic_vector ≠ [] → tEmb.length = u.topic_vector.length) ∧
                (sEmb ≠ [] → u.topic_vector ≠ [] → sEmb.length = u.topic_vector.length)) →
      ∃ res, AIPostProcessService.topics_loop tEmb sEmb th l = Except.ok res := by
  intro l
  induction l with
  | nil => exact fun _ => ⟨[], rfl⟩
  | cons a rest ih =>
    intro h
    obtain ⟨r, hr⟩ := APS_ann_no_error (θ := th)
      (h a (List.mem_cons_self a rest)).1 (h a (List.mem_cons_self a rest)).2
    obtain ⟨res, hres⟩ := ih (fun u hu => h u (List.mem_cons_of_mem _ hu))
    cases r with
    | none =>
      refine ⟨res, ?_⟩
      unfold AIPostProcessService.topics_loop
      rw [hr]
      exact hres
    | some t =>
      refine ⟨t :: res, ?_⟩
      unfold AIPostProcessService.topics_loop
      rw [hr]
      rw [hres]

lemma APS_out {θ : ℝ} {snapshot : List Topic} {tEmb sEmb : Vec} {res : List Topic}
    (hemb : ¬ (tEmb = [] ∧ sEmb = [])) (hne : snapshot ≠ [])
    (hloop : AIPostProcessService.topics_loop tEmb sEmb θ snapshot = Except.ok res) :
    AIPostProcessService.find_similar_topics θ snapshot tEmb sEmb none =
      res.mergeSort scoreGE := by
  have hni : ¬ snapshot.isEmpty := by
    cases snapshot with
    | nil => exact absurd rfl hne
    | cons a l => simp
  simp [AIPostProcessService.find_similar_topics, hemb, hni, hloop]

lemma eq_of_mem_pairwise_ids {l : List Topic} (hp : l.Pairwise (fun a b => a.id ≠ b.id))
    {u v : Topic} (hu : u ∈ l) (hv : v ∈ l) (h : u.id = v.id) : u = v := by
  induction l with
  | nil => cases hu
  | cons a t ih =>
    rcases List.pairwise_cons.mp hp with ⟨ha, hp2⟩
    rcases List.mem_cons.mp hu with rfl | hu2
    · rcases List.mem_cons.mp hv with rfl | hv2
      · rfl
      · exact absurd h (ha v hv2)
    · rcases List.mem_cons.mp hv with rfl | hv2
      · exact absurd h.symm (ha u hu2)
      · exact ih hp2 hu2 hv2

lemma backfill_eval {T : Topic} {tEmb sEmb : Vec} {θ : ℝ}
    (hdt : tEmb ≠ [] → tEmb.length = T.topic_vector.length)
    (hds : sEmb ≠ [] → sEmb.length = T.topic_vector.length)
    (hemb : tEmb ≠ [] ∨ sEmb ≠ []) :
    AIPostProcessService.backfill_article_score T.topic_vector tEmb sEmb θ =
      Except.ok (if θ ≤ dualMax tEmb sEmb T.topic_vector
                 then some (dualMax tEmb sEmb T.topic_vector) else none) := by
  by_cases ht : tEmb = [] <;> by_cases hs : sEmb = []
  · exact absurd hemb (by simp [ht, hs])
  · rw [dualMax_summary_only ht, sklearn_cosine_comm sEmb T.topic_vector]
    simp [AIPostProcessService.backfill_article_score, ht, hs, hds hs, apply_ite]
  · rw [dualMax_title_only ht hs, sklearn_cosine_comm tEmb T.topic_vector]
    simp [AIPostProcessService.backfill_article_score, ht, hs, hdt ht, apply_ite]
  · rw [dualMax_both ht hs, sklearn_cosine_comm tEmb T.topic_vector,
      sklearn_cosine_comm sEmb T.topic_vector]
    simp [AIPostProcessService.backfill_article_score, ht, hs, hdt ht, hds hs, apply_ite]
    split
    · rename_i hcond
      intro hlt
      rcases hcond with h | h
      · exact absurd h (not_le.mpr hlt)
      · exact h
    · rename_i hcond
      push_neg at hcond
      exact hcond

/-- C5: backfill/live equivalence.  For a processed article with stored
embeddings `tEmb`/`sEmb` and a topic `T` (vector present, dimensions
compatible as the system invariant guarantees, topic ids unique in the
snapshot), the backfill path associates the article with `T` exactly when
the live `find_similar_topics` path over a snapshot containing `T` would
return `T`, and both record the same relevance score: the maximum of the
cosine similarities between `T`'s vector and the available embeddings. -/
theorem C5_backfill_live_equivalence
    (θ : ℝ) (snapshot : List Topic) (T : Topic) (tEmb sEmb : Vec)
    (hmem : T ∈ snapshot)
    (hvec : T.topic_vector ≠ [])
    (hids : snapshot.Pairwise (fun a b => a.id ≠ b.id))
    (hdims : ∀ u ∈ snapshot, u.topic_vector ≠ [] →
        (tEmb ≠ [] → tEmb.length = u.topic_vector.length) ∧
        (sEmb ≠ [] → sEmb.length = u.topic_vector.length))
    (hemb : tEmb ≠ [] ∨ sEmb ≠ []) :
    AIPostProcessService.backfill_article_score T.topic_vector tEmb sEmb θ =
      Except.ok (if θ ≤ dualMax tEmb sEmb T.topic_vector
                 then some (dualMax tEmb sEmb T.topic_vector) else none)
    ∧ ∀ s : ℝ,
        (∃ t' ∈ AIPostProcessService.find_similar_topics θ snapshot tEmb sEmb none,
            t'.id = T.id ∧ t'.similarity_score = some s)
        ↔ (θ ≤ dualMax tEmb sEmb T.topic_vector ∧ s = dualMax tEmb sEmb T.topic_vector) := by
  have hne : ¬ (tEmb = [] ∧ sEmb = []) := by
    rcases hemb with h | h
    · exact fun hc => h hc.1
    · exact fun hc => h hc.2
  have hTd := hdims T hmem hvec
  refine ⟨backfill_eval hTd.1 hTd.2 hemb, ?_⟩
  obtain ⟨res, hloop⟩ := @topics_loop_ok tEmb sEmb θ snapshot (fun u hu =>
    ⟨fun ht hv => (hdims u hu hv).1 ht, fun hs hv => (hdims u hu hv).2 hs⟩)
  have hout := APS_out hne (by rintro rfl; cases hmem) hloop
  rw [hout]
  intro s
  constructor
  · rintro ⟨t', ht', hid, hscore⟩
    rw [List.mem_mergeSort] at ht'
    obtain ⟨u, hu, hann⟩ := (topics_loop_mem hloop t').mp ht'
    obtain ⟨hv, _, hid2, _, hscoreu, hθu⟩ := APS_ann_some_facts hann
    obtain rfl : u = T := eq_of_mem_pairwise_ids hids hu hmem (by rw [← hid2]; exact hid)
    rw [hscoreu] at hscore
    exact ⟨hθu, (Option.some_inj.mp hscore).symm⟩
  · rintro ⟨hθT, rfl⟩
    obtain ⟨t', hann⟩ := APS_ann_passes hvec hemb hTd.1 hTd.2 hθT
    obtain ⟨_, _, hid2, _, hscoreu, _⟩ := APS_ann_some_facts hann
    exact ⟨t', List.mem_mergeSort.mpr ((topics_loop_mem hloop t').mpr ⟨T, hmem, hann⟩),
      hid2, hscoreu⟩

/-- C5 witness: the equivalence applied at a concrete topic `[1, 0]`,
snapshot containing only it, title embedding `[1, 0]` and threshold 0.5. -/
theorem C5_backfill_live_equivalence_witness :
    AIPostProcessService.backfill_article_score
        (⟨1, 1, "t", [1, 0], none, none, none, none⟩ : Topic).topic_vector
        [(1 : ℝ), 0] [] (1 / 2) =
      Except.ok (if (1 / 2 : ℝ) ≤ dualMax [(1 : ℝ), 0] []
            (⟨1, 1, "t", [1, 0], none, none, none, none⟩ : Topic).topic_vector
        then some (dualMax [(1 : ℝ), 0] []
            (⟨1, 1, "t", [1, 0], none, none, none, none⟩ : Topic).topic_vector)
        else none) :=
  (C5_backfill_live_equivalence (1 / 2)
    [⟨1, 1, "t", [1, 0], none, none, none, none⟩]
    ⟨1, 1, "t", [1, 0], none, none, none, none⟩ [(1 : ℝ), 0] []
    (by simp) (by simp) (by simp)
    (by
      intro u hu hv
      simp only [List.mem_singleton] at hu
      subst hu
      exact ⟨fun _ => rfl, fun h => absurd rfl h⟩)
    (Or.inl (by simp))).1

lemma stage1_loop_cons_skip {tEmb sEmb : Vec} {e : Event} {rest : List Event} {i : ℕ}
    {st : Option ℕ × ℝ} (h : ¬ AIPostProcessService.eventOk tEmb sEmb e) :
    AIPostProcessService.stage1_loop tEmb sEmb (e :: rest) i st =
      AIPostProcessService.stage1_loop tEmb sEmb rest (i + 1) st := by
  obtain ⟨best, bs⟩ := st
  by_cases h1 : e.event_embedding = []
  · simp [AIPostProcessService.stage1_loop, h1]
  · have h2 : (tEmb ≠ [] ∧ tEmb.length ≠ e.event_embedding.length)
        ∨ (sEmb ≠ [] ∧ sEmb.length ≠ e.event_embedding.length) := by
      by_contra hc
      push_neg at hc
      exact h ⟨h1, hc.1, hc.2⟩
    simp [AIPostProcessService.stage1_loop, h1, h2]

lemma stage1_loop_cons_ok {tEmb sEmb : Vec} {e : Event} {rest : List Event} {i : ℕ}
    {best : Option ℕ} {bs : ℝ} (h : AIPostProcessService.eventOk tEmb sEmb e) :
    AIPostProcessService.stage1_loop tEmb sEmb (e :: rest) i (best, bs) =
      (if bs < AIPostProcessService.eventSim tEmb sEmb e then
        AIPostProcessService.stage1_loop tEmb sEmb rest (i + 1)
          (some i, AIPostProcessService.eventSim tEmb sEmb e)
      else AIPostProcessService.stage1_loop tEmb sEmb rest (i + 1) (best, bs)) := by
  obtain ⟨h1, h2t, h2s⟩ := h
  have h2 : ¬ ((tEmb ≠ [] ∧ tEmb.length ≠ e.event_embedding.length)
      ∨ (sEmb ≠ [] ∧ sEmb.length ≠ e.event_embedding.length)) := by
    push_neg
    exact ⟨h2t, h2s⟩
  simp [AIPostProcessService.stage1_loop, h1, h2]

lemma stage1_loop_no_improve {tEmb sEmb : Vec} :
    ∀ (l : List Event) (i : ℕ) (best : Option ℕ) (bs : ℝ),
      (∀ e ∈ l, AIPostProcessService.eventOk tEmb sEmb e →
        AIPostProcessService.eventSim tEmb sEmb e ≤ bs) →
      AIPostProcessService.stage1_loop tEmb sEmb l i (best, bs) = (best, bs) := by
  intro l
  induction l with
  | nil => intro i best bs h; rfl
  | cons e rest ih =>
    intro i best bs h
    by_cases hok : AIPostProcessService.eventOk tEmb sEmb e
    · rw [stage1_loop_cons_ok hok,
        if_neg (not_lt.mpr (h e (List.mem_cons_self e rest) hok))]
      exact ih _ _ _ (fun x hx hox => h x (List.mem_cons_of_mem _ hx) hox)
    · rw [stage1_loop_cons_skip hok]
      exact ih _ _ _ (fun x hx hox => h x (List.mem_cons_of_mem _ hx) hox)

lemma stage1_loop_first_max {tEmb sEmb : Vec} :
    ∀ (l : List Event) (i : ℕ) (best : Option ℕ) (bs : ℝ),
      (∃ e ∈ l, AIPostProcessService.eventOk tEmb sEmb e ∧
        bs < AIPostProcessService.eventSim tEmb sEmb e) →
      ∃ (k : ℕ) (e : Event),
        l[k]? = some e ∧ AIPostProcessService.eventOk tEmb sEmb e ∧
        bs < AIPostProcessService.eventSim tEmb sEmb e ∧
        AIPostProcessService.stage1_loop tEmb sEmb l i (best, bs) =
          (some (i + k), AIPostProcessService.eventSim tEmb sEmb e) ∧
        (∀ (j : ℕ) (e2 : Event), l[j]? = some e2 → AIPostProcessService.eventOk tEmb sEmb e2 →
          AIPostProcessService.eventSim tEmb sEmb e2 ≤ AIPostProcessService.eventSim tEmb sEmb e) ∧
        (∀ (j : ℕ) (e2 : Event), j < k → l[j]? = some e2 →
          AIPostProcessService.eventOk tEmb sEmb e2 →
          AIPostProcessService.eventSim tEmb sEmb e2 < AIPostProcessService.eventSim tEmb sEmb e) := by
  intro l
  induction l with
  | nil =>
    rintro i best bs ⟨e, he, _⟩
    cases he
  | cons a rest ih =>
    rintro i best bs ⟨e, he, hok, himp⟩
    by_cases hoka : AIPostProcessService.eventOk tEmb sEmb a
    · by_cases himpa : bs < AIPostProcessService.eventSim tEmb sEmb a
      · rw [stage1_loop_cons_ok hoka, if_pos himpa]
        by_cases hmore : ∃ x ∈ rest, AIPostProcessService.eventOk tEmb sEmb x ∧
            AIPostProcessService.eventSim tEmb sEmb a < AIPostProcessService.eventSim tEmb sEmb x
        · obtain ⟨k2, e2, hk2, hok2, hbs2, hloop2, hmax2, hfirst2⟩ :=
            ih (i + 1) (some i) (AIPostProcessService.eventSim tEmb sEmb a) hmore
          refine ⟨k2 + 1, e2, by simpa using hk2, hok2, lt_trans himpa hbs2, ?_, ?_, ?_⟩
          · rw [hloop2]
            have : i + (k2 + 1) = i + 1 + k2 := by omega
            rw [this]
          · intro j e3 hj hok3
            cases j with
            | zero =>
              rw [List.getElem?_cons_zero] at hj
              obtain rfl := Option.some_inj.mp hj
              exact le_of_lt hbs2
            | succ n =>
              rw [List.getElem?_cons_succ] at hj
              exact hmax2 n e3 hj hok3
          · intro j e3 hjk hj hok3
            cases j with
            | zero =>
              rw [List.getElem?_cons_zero] at hj
              obtain rfl := Option.some_inj.mp hj
              exact hbs2
            | succ n =>
              rw [List.getElem?_cons_succ] at hj
              exact hfirst2 n e3 (by omega) hj hok3
        · push_neg at hmore
          refine ⟨0, a, by simp, hoka, himpa, ?_, ?_, ?_⟩
          · rw [stage1_loop_no_improve rest (i + 1) (some i)
              (AIPostProcessService.eventSim tEmb sEmb a)
              (fun x hx hox => hmore x hx hox)]
            rw [Nat.add_zero]
          · intro j e3 hj hok3
            cases j with
            | zero =>
              rw [List.getElem?_cons_zero] at hj
              obtain rfl := Option.some_inj.mp hj
              exact le_refl _
            | succ n =>
              rw [List.getElem?_cons_succ] at hj
              exact hmore e3 (List.getElem?_mem hj) hok3
          · intro j e3 hjk
            exact absurd hjk (by omega)
      · rw [stage1_loop_cons_ok hoka, if_neg himpa]
        have hrest : ∃ x ∈ rest, AIPostProcessService.eventOk tEmb sEmb x ∧
            bs < AIPostProcessService.eventSim tEmb sEmb x := by
          rcases List.mem_cons.mp he with rfl | he2
          · exact absurd himp himpa
          · exact ⟨e, he2, hok, himp⟩
        obtain ⟨k2, e2, hk2, hok2, hbs2, hloop2, hmax2, hfirst2⟩ := ih (i + 1) best bs hrest
        have hale : AIPostProcessService.eventSim tEmb sEmb a <
            AIPostProcessService.eventSim tEmb sEmb e2 :=
          lt_of_le_of_lt (not_lt.mp himpa) hbs2
        refine ⟨k2 + 1, e2, by simpa using hk2, hok2, hbs2, ?_, ?_, ?_⟩
        · rw [hloop2]
          have : i + (k2 + 1) = i + 1 + k2 := by omega
          rw [this]
        · intro j e3 hj hok3
          cases j with
          | zero =>
            rw [List.getElem?_cons_zero] at hj
            obtain rfl := Option.some_inj.mp hj
            exact le_of_lt hale
          | succ n =>
            rw [List.getElem?_cons_succ] at hj
            exact hmax2 n e3 hj hok3
        · intro j e3 hjk hj hok3
          cases j with
          | zero =>
            rw [List.getElem?_cons_zero] at hj
            obtain rfl := Option.some_inj.mp hj
            exact hale
          | succ n =>
            rw [List.getElem?_cons_succ] at hj
            exact hfirst2 n e3 (by omega) hj hok3
    · rw [stage1_loop_cons_skip hoka]
      have hrest : ∃ x ∈ rest, AIPostProcessService.eventOk tEmb sEmb x ∧
          bs < AIPostProcessService.eventSim tEmb sEmb x := by
        rcases List.mem_cons.mp he with rfl | he2
        · exact absurd hok hoka
        · exact ⟨e, he2, hok, himp⟩
      obtain ⟨k2, e2, hk2, hok2, hbs2, hloop2, hmax2, hfirst2⟩ := ih (i + 1) best bs hrest
      refine ⟨k2 + 1, e2, by simpa using hk2, hok2, hbs2, ?_, ?_, ?_⟩
      · rw [hloop2]
        have : i + (k2 + 1) = i + 1 + k2 := by omega
        rw [this]
      · intro j e3 hj hok3
        cases j with
        | zero =>
          rw [List.getElem?_cons_zero] at hj
          obtain rfl := Option.some_inj.mp hj
          exact absurd hok3 hoka
        | succ n =>
          rw [List.getElem?_cons_succ] at hj
          exact hmax2 n e3 hj hok3
      · intro j e3 hjk hj hok3
        cases j with
        | zero =>
          rw [List.getElem?_cons_zero] at hj
          obtain rfl := Option.some_inj.mp hj
          exact absurd hok3 hoka
        | succ n =>
          rw [List.getElem?_cons_succ] at hj
          exact hfirst2 n e3 (by omega) hj hok3

/-- C1 (amended): if the backend returns events, some event with an
embedding (dimension-compatible, as the system invariant guarantees) has
dual similarity ≥ `cluster_threshold`, and that similarity is positive
(automatic whenever `cluster_threshold > 0`; at threshold 0 a best
similarity of exactly 0 falls through to the reasoning stage because the
loop tracks the best match with a strict comparison against an initial best
of 0.0), then `detect_or_create_cluster` returns exactly the
highest-scoring existing event - the first one attaining the maximum - with
`relevance_score` set to that similarity, the reasoning capability is never
invoked, and no event is created. -/
theorem C1_direct_assignment
    (env : Env) (θ : ℝ) (pr : Option String) (uid tid : ℕ) (tEmb sEmb : Vec)
    (evs : List Event) (e : Event)
    (hev : env.get_events = Except.ok evs)
    (he : e ∈ evs)
    (hok : AIPostProcessService.eventOk tEmb sEmb e)
    (hθ : θ ≤ AIPostProcessService.eventSim tEmb sEmb e)
    (hpos : 0 < AIPostProcessService.eventSim tEmb sEmb e) :
    ∃ (k : ℕ) (best : Event),
      evs[k]? = some best ∧ AIPostProcessService.eventOk tEmb sEmb best ∧
      θ ≤ AIPostProcessService.eventSim tEmb sEmb best ∧
      (∀ (j : ℕ) (e2 : Event), evs[j]? = some e2 →
        AIPostProcessService.eventOk tEmb sEmb e2 →
        AIPostProcessService.eventSim tEmb sEmb e2 ≤
          AIPostProcessService.eventSim tEmb sEmb best) ∧
      (∀ (j : ℕ) (e2 : Event), j < k → evs[j]? = some e2 →
        AIPostProcessService.eventOk tEmb sEmb e2 →
        AIPostProcessService.eventSim tEmb sEmb e2 <
          AIPostProcessService.eventSim tEmb sEmb best) ∧
      AIPostProcessService.detect_or_create_cluster env θ pr uid tid tEmb sEmb =
        (Except.ok (some { best with
            relevance_score := some (AIPostProcessService.eventSim tEmb sEmb best) }),
         ⟨false, []⟩) := by
  have hemb : tEmb ≠ [] ∨ sEmb ≠ [] := by
    by_contra hc
    push_neg at hc
    have h0 : AIPostProcessService.eventSim tEmb sEmb e = 0 := by
      simp [AIPostProcessService.eventSim, hc.1, hc.2]
    rw [h0] at hpos
    exact lt_irrefl 0 hpos
  obtain ⟨k, best, hget, hokb, hposb, hloop, hmax, hfirst⟩ :=
    stage1_loop_first_max evs 0 none 0 ⟨e, he, hok, hpos⟩
  have hθb : θ ≤ AIPostProcessService.eventSim tEmb sEmb best := by
    obtain ⟨j, hj⟩ := List.getElem?_of_mem he
    exact le_trans hθ (hmax j e hj hok)
  have hne : ¬ evs.isEmpty := by
    cases evs with
    | nil => cases he
    | cons a l => simp
  have hdirect : AIPostProcessService.stage1_direct θ tEmb sEmb evs =
      some { best with
        relevance_score := some (AIPostProcessService.eventSim tEmb sEmb best) } := by
    unfold AIPostProcessService.stage1_direct
    rw [if_pos ⟨hne, hemb⟩]
    rw [Nat.zero_add] at hloop
    rw [hloop]
    simp only [if_pos hθb, hget]
  refine ⟨k, best, hget, hokb, hθb, hmax, hfirst, ?_⟩
  unfold AIPostProcessService.detect_or_create_cluster
  rw [hev]
  simp only [hdirect]

/-- C1 counterexample: at `cluster_threshold = 0` the claim as stated fails:
the single event holds an embedding, its dual similarity is 0 ≥ 0, yet the
strict `similarity > best_similarity` comparison against the initial best
0.0 never selects it, so the call proceeds to the reasoning stage
(`llm_called = true`) instead of returning the event. -/
theorem C1_zero_threshold_counterexample :
    AIPostProcessService.eventOk [(0 : ℝ), 1] [] ⟨1, "e", none, [1, 0], none, none⟩
    ∧ AIPostProcessService.eventSim [(0 : ℝ), 1] [] ⟨1, "e", none, [1, 0], none, none⟩ = 0
    ∧ (0 : ℝ) ≤ 0
    ∧ AIPostProcessService.detect_or_create_cluster
        ⟨Except.ok [⟨1, "e", none, [1, 0], none, none⟩], Except.ok none,
         fun _ => Except.error "parse", Except.ok none⟩
        0 (some "p") 1 1 [(0 : ℝ), 1] [] =
      (Except.ok none, ⟨true, []⟩) := by
  have hok : AIPostProcessService.eventOk [(0 : ℝ), 1] [] ⟨1, "e", none, [1, 0], none, none⟩ :=
    ⟨by simp, fun _ => rfl, fun h => absurd rfl h⟩
  have hdot : dot [(0 : ℝ), 1] [1, 0] = 0 := by norm_num [dot]
  have hsim : AIPostProcessService.eventSim [(0 : ℝ), 1] []
      ⟨1, "e", none, [1, 0], none, none⟩ = 0 := by
    simp [AIPostProcessService.eventSim, sklearn_cosine, hdot]
  have hloop : AIPostProcessService.stage1_loop [(0 : ℝ), 1] []
      [⟨1, "e", none, [1, 0], none, none⟩] 0 (none, 0) = (none, 0) := by
    rw [stage1_loop_cons_ok hok, hsim, if_neg (lt_irrefl 0)]
    rfl
  have hdirect : AIPostProcessService.stage1_direct 0 [(0 : ℝ), 1] []
      [⟨1, "e", none, [1, 0], none, none⟩] = none := by
    unfold AIPostProcessService.stage1_direct
    rw [if_pos ⟨by simp, Or.inl (by simp)⟩, hloop]
  refine ⟨hok, hsim, le_refl 0, ?_⟩
  unfold AIPostProcessService.detect_or_create_cluster
  simp only [hdirect]
  rw [if_neg (by decide)]

/-- C1 witness: the amended theorem applied with threshold 0.5 and a single
event whose embedding equals the title embedding `[1, 0]` (similarity 1). -/
theorem C1_direct_assignment_witness :
    ∃ (k : ℕ) (best : Event),
      ([⟨1, "e", none, [1, 0], none, none⟩] : List Event)[k]? = some best ∧
      AIPostProcessService.eventOk [(1 : ℝ), 0] [] best ∧
      (1 / 2 : ℝ) ≤ AIPostProcessService.eventSim [(1 : ℝ), 0] [] best ∧
      (∀ (j : ℕ) (e2 : Event),
        ([⟨1, "e", none, [1, 0], none, none⟩] : List Event)[j]? = some e2 →
        AIPostProcessService.eventOk [(1 : ℝ), 0] [] e2 →
        AIPostProcessService.eventSim [(1 : ℝ), 0] [] e2 ≤
          AIPostProcessService.eventSim [(1 : ℝ), 0] [] best) ∧
      (∀ (j : ℕ) (e2 : Event), j < k →
        ([⟨1, "e", none, [1, 0], none, none⟩] : List Event)[j]? = some e2 →
        AIPostProcessService.eventOk [(1 : ℝ), 0] [] e2 →
        AIPostProcessService.eventSim [(1 : ℝ), 0] [] e2 <
          AIPostProcessService.eventSim [(1 : ℝ), 0] [] best) ∧
      AIPostProcessService.detect_or_create_cluster
        ⟨Except.ok [⟨1, "e", none, [1, 0], none, none⟩], Except.ok none,
         fun _ => Except.error "parse", Except.ok none⟩
        (1 / 2) (some "p") 1 1 [(1 : ℝ), 0] [] =
        (Except.ok (some { (⟨1, "e", none, [1, 0], none, none⟩ : Event) with
            relevance_score := some (AIPostProcessService.eventSim [(1 : ℝ), 0] [] best) }),
         ⟨false, []⟩) := by
  have h1 : dot [(1 : ℝ), 0] [1, 0] = 1 := by norm_num [dot]
  have hn : sklNorm [(1 : ℝ), 0] = 1 := by
    simp [sklNorm, h1, Real.sqrt_one]
  have hsim : AIPostProcessService.eventSim [(1 : ℝ), 0] []
      ⟨1, "e", none, [1, 0], none, none⟩ = 1 := by
    simp [AIPostProcessService.eventSim, sklearn_cosine, h1, hn]
  obtain ⟨k, best, hget, hokb, hθb, hmax, hfirst, hres⟩ :=
    C1_direct_assignment
      ⟨Except.ok [⟨1, "e", none, [1, 0], none, none⟩], Except.ok none,
       fun _ => Except.error "parse", Except.ok none⟩
      (1 / 2) (some "p") 1 1 [(1 : ℝ), 0] []
      [⟨1, "e", none, [1, 0], none, none⟩] ⟨1, "e", none, [1, 0], none, none⟩
      rfl (by simp) ⟨by simp, fun _ => rfl, fun h => absurd rfl h⟩
      (by rw [hsim]; norm_num) (by rw [hsim]; norm_num)
  obtain rfl : best = ⟨1, "e", none, [1, 0], none, none⟩ := by
    cases k with
    | zero => simpa using hget.symm
    | succ n => simp at hget
  exact ⟨k, _, hget, hokb, hθb, hmax, hfirst, hres⟩

/-- C2 (amended): when the `cluster_detection` prompt template is absent at
the reasoning stage, no default prompt is substituted and the stage raises a
`ValueError` that propagates out of `_analyze_clustering_with_llm` without
invoking the reasoning capability - but the claim's assertion that the error
propagates out of `detect_or_create_cluster` fails: the method's own
`except Exception` handler catches it and returns null, so the clustering
pass is not aborted. -/
theorem C2_missing_prompt_raises_but_is_caught
    (env : Env) (θ : ℝ) (uid tid : ℕ) (tEmb sEmb : Vec)
    (pr : Option String) (hp : pr = none ∨ pr = some "")
    (hd : ClusteringService.direct_match tEmb sEmb (existing_events_of env) θ = none) :
    (∃ msg, (ClusteringService.analyze_clustering_with_llm env pr uid tid).1 =
        Except.error msg)
    ∧ (ClusteringService.analyze_clustering_with_llm env pr uid tid).2 = ⟨false, []⟩
    ∧ ClusteringService.detect_or_create_cluster env θ pr uid tid tEmb sEmb =
        (Except.ok none, ⟨false, []⟩) := by
  have hana : ClusteringService.analyze_clustering_with_llm env pr uid tid =
      (Except.error "Cluster detection prompt not available from database", ⟨false, []⟩) := by
    rcases hp with rfl | rfl
    · rfl
    · rfl
  refine ⟨⟨_, by rw [hana]⟩, by rw [hana], ?_⟩
  unfold ClusteringService.detect_or_create_cluster
  rw [hd, hana]

/-- C2 counterexample: a concrete call with the prompt template absent:
`detect_or_create_cluster` returns normally with null (and the reasoning
capability not invoked) - the `ValueError` does not propagate out of the
call, contradicting the claim's "the error propagates out of
detect_or_create_cluster". -/
theorem C2_error_does_not_escape_counterexample :
    ClusteringService.detect_or_create_cluster
      ⟨Except.ok [], Except.ok none, fun _ => Except.error "x", Except.ok none⟩
      (7 / 10) none 1 1 [] [] = (Except.ok none, ⟨false, []⟩) := by
  have hd : ClusteringService.direct_match [] []
      (existing_events_of
        ⟨Except.ok [], Except.ok none, fun _ => Except.error "x", Except.ok none⟩)
      (7 / 10) = none := by
    simp [ClusteringService.direct_match, existing_events_of]
  unfold ClusteringService.detect_or_create_cluster
  rw [hd]
  rfl

/-- C2 witness: the amended theorem applied at a concrete environment with
no prompt configured and no existing events. -/
theorem C2_missing_prompt_witness :
    ClusteringService.detect_or_create_cluster
      ⟨Except.ok [], Except.ok (some "r"), fun _ => Except.error "x", Except.ok none⟩
      (7 / 10) none 2 3 [] [] = (Except.ok none, ⟨false, []⟩) :=
  (C2_missing_prompt_raises_but_is_caught
    ⟨Except.ok [], Except.ok (some "r"), fun _ => Except.error "x", Except.ok none⟩
    (7 / 10) 2 3 [] [] none (Or.inl rfl)
    (by simp [ClusteringService.direct_match, existing_events_of])).2.2

/-- C3: when the numeric stage yields no direct match and the reasoning call
returns a response, then: a parseable decision with a title leads to exactly
one event-creation call built from the returned fields, and (when the
backend creation succeeds) that new event is returned with
`relevance_score = 1.0`; an unparseable response, or a parseable one without
a title, fails soft - null is returned and no creation call is issued. -/
theorem C3_reasoning_creates_or_soft_fails
    (env : Env) (θ : ℝ) (p : String) (uid tid : ℕ) (tEmb sEmb : Vec)
    (evs : List Event) (response : String)
    (hev : env.get_events = Except.ok evs)
    (hp : p ≠ "")
    (hdirect : AIPostProcessService.stage1_direct θ tEmb sEmb evs = none)
    (hllm : env.llm_response = Except.ok (some response))
    (hresp : response ≠ "") :
    (∀ d : Decision, env.parse response = Except.ok d → d.title ≠ "" →
      ∀ ev : Event, env.create_event = Except.ok (some ev) →
        AIPostProcessService.detect_or_create_cluster env θ (some p) uid tid tEmb sEmb =
          (Except.ok (some { ev with relevance_score := some 1 }),
           ⟨true, [⟨uid, tid, d.title, d.description, d.event_description⟩]⟩))
    ∧ (∀ msg, env.parse response = Except.error msg →
        AIPostProcessService.detect_or_create_cluster env θ (some p) uid tid tEmb sEmb =
          (Except.ok none, ⟨true, []⟩))
    ∧ (∀ d : Decision, env.parse response = Except.ok d → d.title = "" →
        AIPostProcessService.detect_or_create_cluster env θ (some p) uid tid tEmb sEmb =
          (Except.ok none, ⟨true, []⟩)) := by
  refine ⟨?_, ?_, ?_⟩
  · intro d hparse htitle ev hcreate
    unfold AIPostProcessService.detect_or_create_cluster
    rw [hev]
    simp only [hdirect, hllm, hparse, hcreate]
    rw [if_neg hp, if_neg hresp, if_neg htitle]
  · intro msg hparse
    unfold AIPostProcessService.detect_or_create_cluster
    rw [hev]
    simp only [hdirect, hllm, hparse]
    rw [if_neg hp, if_neg hresp]
  · intro d hparse htitle
    unfold AIPostProcessService.detect_or_create_cluster
    rw [hev]
    simp only [hdirect, hllm, hparse]
    rw [if_neg hp, if_neg hresp, if_pos htitle]

/-- C3 witness: the theorem applied at a concrete environment whose
reasoning call returns a parseable decision titled "T" and whose backend
creation succeeds: exactly one creation call with the returned fields, and
the new event comes back with relevance score 1. -/
theorem C3_reasoning_creates_witness :
    AIPostProcessService.detect_or_create_cluster
      ⟨Except.ok [], Except.ok (some "resp"),
       fun _ => Except.ok ⟨"T", some "d", some "ed"⟩,
       Except.ok (some ⟨5, "created", none, [], none, none⟩)⟩
      (7 / 10) (some "p") 2 3 [] [] =
      (Except.ok (some { (⟨5, "created", none, [], none, none⟩ : Event) with
          relevance_score := some 1 }),
       ⟨true, [⟨2, 3, "T", some "d", some "ed"⟩]⟩) :=
  (C3_reasoning_creates_or_soft_fails
    ⟨Except.ok [], Except.ok (some "resp"),
     fun _ => Except.ok ⟨"T", some "d", some "ed"⟩,
     Except.ok (some ⟨5, "created", none, [], none, none⟩)⟩
    (7 / 10) "p" 2 3 [] [] [] "resp" rfl (by decide)
    (by simp [AIPostProcessService.stage1_direct]) rfl (by decide)).1
    ⟨"T", some "d", some "ed"⟩ rfl (by decide)
    ⟨5, "created", none, [], none, none⟩ rfl

/-- C9: for every input and every collaborator behaviour - the backend
event fetch, the reasoning call and the backend event creation may each
return anything or raise - both implementations of
`detect_or_create_cluster` return normally with an event or null: no
exception ever reaches the caller (the top-level `except Exception`
handlers convert every raise into a null return). -/
theorem C9_no_exception_escapes (env : Env) (θ : ℝ) (pr : Option String)
    (uid tid : ℕ) (tEmb sEmb : Vec) :
    (∃ o, (AIPostProcessService.detect_or_create_cluster env θ pr uid tid tEmb sEmb).1 =
      Except.ok o)
    ∧ (∃ o, (ClusteringService.detect_or_create_cluster env θ pr uid tid tEmb sEmb).1 =
      Except.ok o) := by
  constructor
  · unfold AIPostProcessService.detect_or_create_cluster
    repeat' split
    all_goals exact ⟨_, rfl⟩
  · unfold ClusteringService.detect_or_create_cluster
    repeat' split
    all_goals exact ⟨_, rfl⟩

/-- C10: frame effects of the similarity matchers.  (1) When
`find_similar_events` returns a match, the returned dictionary is the very
element of the caller's list, mutated in place by adding the
'similarity_score' key: the post-call list is the input list with that
element replaced by the returned value.  (2) `find_similar_topics` copies
before annotating: the input list is returned unchanged, and every returned
topic is a copy of an input candidate agreeing with it on all of its
original fields.  (3) A stage-1 direct assignment in the orchestration
returns an element of the fetched events list with a 'relevance_score' key
added. -/
theorem C10_in_place_mutation_vs_copy :
    (∀ (tEmb sEmb : Vec) (evs : List Event) (θ : ℝ) (ev : Event) (post : List Event),
      SimilarityCalculator.find_similar_events tEmb sEmb evs θ = (some ev, post) →
      ∃ (i : ℕ) (e : Event) (s : ℝ), evs[i]? = some e ∧
        ev = { e with similarity_score := some s } ∧
        post = evs.set i ev)
    ∧ (∀ (d : ℝ) (tEmb sEmb : Vec) (topics : List Topic) (th : Option ℝ),
        (SimilarityCalculator.find_similar_topics d tEmb sEmb topics th).2 = topics
        ∧ ∀ t' ∈ (SimilarityCalculator.find_similar_topics d tEmb sEmb topics th).1,
            ∃ u ∈ topics, t'.id = u.id ∧ t'.user_id = u.user_id ∧ t'.name = u.name ∧
              t'.topic_vector = u.topic_vector)
    ∧ (∀ (θ : ℝ) (tEmb sEmb : Vec) (evs : List Event) (ev : Event),
        AIPostProcessService.stage1_direct θ tEmb sEmb evs = some ev →
        ∃ (i : ℕ) (e : Event) (s : ℝ), evs[i]? = some e ∧
          ev = { e with relevance_score := some s }) := by
  refine ⟨?_, ?_, ?_⟩
  · intro tEmb sEmb evs θ ev post h
    unfold SimilarityCalculator.find_similar_events at h
    split at h
    · exact absurd (congrArg Prod.fst h) (by simp)
    · split at h
      · rename_i i bs hloop
        split at h
        · split at h
          · rename_i e hget
            obtain ⟨h1, h2⟩ := Prod.mk.injEq .. ▸ h
            exact ⟨i, e, bs, hget, (Option.some_inj.mp h1).symm,
              by rw [← h2, Option.some_inj.mp h1]⟩
          · exact absurd (congrArg Prod.fst h) (by simp)
        · exact absurd (congrArg Prod.fst h) (by simp)
      · exact absurd (congrArg Prod.fst h) (by simp)
  · intro d tEmb sEmb topics th
    constructor
    · unfold SimilarityCalculator.find_similar_topics
      repeat' split
      all_goals rfl
    · intro t' ht'
      by_cases hemb : tEmb = [] ∧ sEmb = []
      · have hnil : (SimilarityCalculator.find_similar_topics d tEmb sEmb topics th).1 = [] := by
          obtain ⟨rfl, rfl⟩ := hemb
          unfold SimilarityCalculator.find_similar_topics
          by_cases htop : topics.isEmpty
          · rw [if_pos htop]
          · rw [if_neg htop]
            simp
        rw [hnil] at ht'
        cases ht'
      · obtain ⟨θe, hout⟩ := SC_out_shape (d := d) hemb
        rw [hout] at ht'
        rw [List.mem_mergeSort] at ht'
        obtain ⟨u, hu, hann⟩ := List.mem_filterMap.mp ht'
        obtain ⟨_, _, hid, huser, hname, hvec, _, _⟩ := SC_ann_some_facts hann
        exact ⟨u, hu, hid, huser, hname, hvec⟩
  · intro θ tEmb sEmb evs ev h
    unfold AIPostProcessService.stage1_direct at h
    split at h
    · split at h
      · rename_i i bs hloop
        split at h
        · split at h
          · rename_i e hget
            exact ⟨i, e, bs, hget, (Option.some_inj.mp h).symm⟩
          · exact absurd h (by simp)
        · exact absurd h (by simp)
      · exact absurd h (by simp)
    · exact absurd h (by simp)

/-- C10 witness: the frame theorem applied at a concrete matching call - a
single event whose embedding equals the title embedding: the returned
dictionary is the list element annotated with its similarity, and the
post-call list contains exactly that mutated element. -/
theorem C10_in_place_mutation_witness :
    ∃ (i : ℕ) (e : Event) (s : ℝ),
      ([⟨1, "e", none, [1, 0], none, none⟩] : List Event)[i]? = some e ∧
      ({ (⟨1, "e", none, [1, 0], none, none⟩ : Event) with
          similarity_score := some 1 } : Event) = { e with similarity_score := some s } ∧
      ([{ (⟨1, "e", none, [1, 0], none, none⟩ : Event) with
          similarity_score := some 1 }] : List Event) =
        ([⟨1, "e", none, [1, 0], none, none⟩] : List Event).set i
          { (⟨1, "e", none, [1, 0], none, none⟩ : Event) with similarity_score := some 1 } := by
  have h1 : dot [(1 : ℝ), 0] [1, 0] = 1 := by norm_num [dot]
  have hn : sklNorm [(1 : ℝ), 0] = 1 := by
    simp [sklNorm, h1, Real.sqrt_one]
  have hcos : calculate_cosine_similarity [(1 : ℝ), 0] [1, 0] = 1 := by
    unfold calculate_cosine_similarity calculate_cosine_similarity_body
    simp [sklearn_cosine, h1, hn]
  have hsim : SimilarityCalculator.eventSimCalc [(1 : ℝ), 0] []
      ⟨1, "e", none, [1, 0], none, none⟩ = 1 := by
    simp [SimilarityCalculator.eventSimCalc, hcos]
  have h0 : (0 : ℝ) < 1 := by norm_num
  have hle : (1 : ℝ) / 2 ≤ 1 := by norm_num
  have hloop : SimilarityCalculator.fse_loop [(1 : ℝ), 0] []
      [⟨1, "e", none, [1, 0], none, none⟩] 0 (none, 0) = (some 0, 1) := by
    simp [SimilarityCalculator.fse_loop, hsim, h0]
  have hfse : SimilarityCalculator.find_similar_events [(1 : ℝ), 0] []
      [⟨1, "e", none, [1, 0], none, none⟩] (1 / 2) =
      (some { (⟨1, "e", none, [1, 0], none, none⟩ : Event) with similarity_score := some 1 },
       [{ (⟨1, "e", none, [1, 0], none, none⟩ : Event) with similarity_score := some 1 }]) := by
    simp [SimilarityCalculator.find_similar_events, hloop, hle]
    norm_num
  exact C10_in_place_mutation_vs_copy.1 [(1 : ℝ), 0] []
    [⟨1, "e", none, [1, 0], none, none⟩] (1 / 2) _ _ hfse

end NewsFrontier
